import Mathlib

/-!
Shallow embedding of the action-combat simulation core of the
`ai-game` repository (gameplay subpackage: `resource_system.py`,
`odm_system.py`, `combat_system.py`, `titan_ai.py`, `player.py`),
with theorems settling the specification claims about it.

Python floats are modelled as elements of an arbitrary linear ordered
field `K` (instantiated with `ℝ` in the theorems); `math.sqrt`,
`math.cos` and `math.sin` are supplied through a `MathOps` record so
that the definitions stay computable and the theorems can pick
`Real.sqrt`/`Real.cos`/`Real.sin`.  Python's `random` module is
modelled by threading an explicit stream of drawn values
(`List K`), and `time.time()` by an explicit `now` argument.
-/


/-- Record of the transcendental operations the source uses
(`math.sqrt`, `math.cos`, `math.sin`); the theorems instantiate it
with the real functions. -/
structure MathOps (K : Type) where
  sqrt : K → K
  cos : K → K
  sin : K → K

/-- 3D vector (`Vec3` dataclass, shared shape across
`combat_system.py`, `odm_system.py`, `titan_ai.py`). -/
structure Vec3 (K : Type) where
  x : K
  y : K
  z : K

variable {K : Type} [LinearOrderedField K]

instance : Add (Vec3 K) := ⟨fun a b => ⟨a.x + b.x, a.y + b.y, a.z + b.z⟩⟩

instance : Sub (Vec3 K) := ⟨fun a b => ⟨a.x - b.x, a.y - b.y, a.z - b.z⟩⟩

/-- `Vec3.__mul__` : scalar multiplication. -/
instance : HMul (Vec3 K) K (Vec3 K) := ⟨fun a s => ⟨a.x * s, a.y * s, a.z * s⟩⟩

/-- Zero vector `Vec3()` (all dataclass defaults are 0.0). -/
instance : Zero (Vec3 K) := ⟨⟨0, 0, 0⟩⟩

/-- Squared Euclidean norm (the argument of `math.sqrt` in
`Vec3.magnitude`). -/
def Vec3.normSq (a : Vec3 K) : K := a.x * a.x + a.y * a.y + a.z * a.z

/-- `Vec3.magnitude` : `math.sqrt(x*x + y*y + z*z)`. -/
def Vec3.magnitude (m : MathOps K) (a : Vec3 K) : K := m.sqrt a.normSq

/-- `Vec3.__truediv__` : component-wise division with a zero guard
(returns the zero vector when the scalar is 0). -/
def Vec3.sdiv (a : Vec3 K) (s : K) : Vec3 K :=
  if s = 0 then 0 else ⟨a.x / s, a.y / s, a.z / s⟩

/-- `Vec3.normalized` : `self / magnitude`, zero vector when the
magnitude is 0. -/
def Vec3.normalized (m : MathOps K) (a : Vec3 K) : Vec3 K :=
  let mag := a.magnitude m
  if mag = 0 then 0 else a.sdiv mag

/-- `Vec3.dot`. -/
def Vec3.dot (a b : Vec3 K) : K := a.x * b.x + a.y * b.y + a.z * b.z

/-- `Vec3.distance_to` : Euclidean distance between two points. -/
def Vec3.distance_to (m : MathOps K) (a b : Vec3 K) : K :=
  m.sqrt ((a.x - b.x) * (a.x - b.x) + (a.y - b.y) * (a.y - b.y)
    + (a.z - b.z) * (a.z - b.z))

/-- `Vec3.direction_to` (from `titan_ai.py`) : unit vector from `a`
toward `b`, zero when the two points coincide. -/
def Vec3.direction_to (m : MathOps K) (a b : Vec3 K) : Vec3 K :=
  let d : Vec3 K := b - a
  let len := m.sqrt (d.x * d.x + d.y * d.y + d.z * d.z)
  if len = 0 then 0 else ⟨d.x / len, d.y / len, d.z / len⟩

/-! ## ResourceSystem (`gameplay/resource_system.py`) -/

/-- Mutable state of `ResourceSystem` (configuration values together
with the current resource levels). -/
structure ResourceSystem (K : Type) where
  max_gas : K
  max_blades : ℤ
  max_blade_durability : K
  low_gas_threshold : K
  low_blade_threshold : ℤ
  gas_level : K
  blade_count : ℤ
  blade_durability : K

/-- `ResourceSystem.consume_gas` : returns whether the consumption
succeeded, together with the updated system. -/
def ResourceSystem.consume_gas (rs : ResourceSystem K) (amount : K) :
    Bool × ResourceSystem K :=
  if amount < 0 then (false, rs)
  else if rs.gas_level ≥ amount then
    (true, { rs with gas_level := rs.gas_level - amount })
  else (false, rs)

/-- `ResourceSystem.consume_blade_durability`. -/
def ResourceSystem.consume_blade_durability (rs : ResourceSystem K) (amount : K) :
    Bool × ResourceSystem K :=
  if amount < 0 then (false, rs)
  else if rs.blade_durability ≥ amount then
    (true, { rs with blade_durability := rs.blade_durability - amount })
  else (false, rs)

/-- `ResourceSystem.switch_blade`. -/
def ResourceSystem.switch_blade (rs : ResourceSystem K) :
    Bool × ResourceSystem K :=
  if rs.blade_count > 0 then
    (true, { rs with blade_count := rs.blade_count - 1,
                     blade_durability := rs.max_blade_durability })
  else (false, rs)

/-- Concrete resource state used by witnesses: full defaults
(gas 100, 4 blades, durability 100, thresholds 0.2 / 2). -/
def rsSample : ResourceSystem K :=
  { max_gas := 100, max_blades := 4, max_blade_durability := 100,
    low_gas_threshold := 1/5, low_blade_threshold := 2,
    gas_level := 100, blade_count := 4, blade_durability := 100 }

/-! ## CombatSystem (`gameplay/combat_system.py`) -/

/-- `AttackResult` dataclass. -/
structure AttackResult (K : Type) where
  hit : Bool
  damage : K
  is_critical : Bool
  target_part : String
  killed : Bool

/-- The default-constructed `AttackResult()` (all dataclass
defaults). -/
def AttackResult.empty : AttackResult K :=
  { hit := false, damage := 0, is_critical := false, target_part := "",
    killed := false }

/-- `TitanHitbox` (combat-side titan hit model). -/
structure TitanHitbox (K : Type) where
  position : Vec3 K
  nape_center : Vec3 K
  nape_radius : K
  health : K
  max_health : K
  is_alive : Bool

/-- `TitanHitbox.get_absolute_nape_position`. -/
def TitanHitbox.get_absolute_nape_position (t : TitanHitbox K) : Vec3 K :=
  ⟨t.position.x + t.nape_center.x, t.position.y + t.nape_center.y,
   t.position.z + t.nape_center.z⟩

/-- `TitanHitbox.is_point_in_nape` : distance from the point to the
absolute nape position is at most `nape_radius`. -/
def TitanHitbox.is_point_in_nape (m : MathOps K) (t : TitanHitbox K)
    (point : Vec3 K) : Bool :=
  decide (point.distance_to m t.get_absolute_nape_position ≤ t.nape_radius)

/-- `TitanHitbox.take_damage` : returns whether the titan was killed,
together with the updated hitbox.  A nape hit zeroes health and kills
unconditionally; otherwise death occurs when health reaches 0. -/
def TitanHitbox.take_damage (t : TitanHitbox K) (damage : K)
    (is_nape_hit : Bool) : Bool × TitanHitbox K :=
  if !t.is_alive then (false, t)
  else
    let t1 := { t with health := t.health - damage }
    if is_nape_hit then (true, { t1 with health := 0, is_alive := false })
    else if t1.health ≤ 0 then (true, { t1 with health := 0, is_alive := false })
    else (false, t1)

/-- Class constant `STYLE_MULTIPLIER_SPEED_THRESHOLD = 10.0`. -/
def styleSpeedThreshold : K := 10

/-- Class constant `STYLE_MULTIPLIER_BONUS = 1.5`. -/
def styleBonus : K := 3 / 2

/-- Class constant `BASE_KILL_SCORE = 100.0`. -/
def baseKillScore : K := 100

/-- Python `int(x)` : truncation toward zero. -/
def pyInt [FloorRing K] (x : K) : ℤ := if 0 ≤ x then ⌊x⌋ else -⌊-x⌋

/-- Mutable state of `CombatSystem` (configuration plus combat
state; `time.time()` samples are passed in explicitly as `now`). -/
structure CombatSystem (K : Type) where
  base_attack_damage : K
  durability_cost : K
  combo_timeout : K
  max_blade_durability : K
  blade_durability : K
  combo_count : ℤ
  last_kill_time : K
  total_score : ℤ
  attack_enabled_flag : Bool
  current_style_multiplier : K

/-- Property `CombatSystem.attack_enabled` :
`self._attack_enabled and self._blade_durability > 0`. -/
def CombatSystem.attack_enabled (cs : CombatSystem K) : Bool :=
  cs.attack_enabled_flag && decide (cs.blade_durability > 0)

/-- `CombatSystem.check_nape_hit` (the `None` guards of the source
have no counterpart here because the embedding passes values, never
null references). -/
def CombatSystem.check_nape_hit (m : MathOps K) (titan : TitanHitbox K)
    (hit_point : Vec3 K) : Bool :=
  titan.is_point_in_nape m hit_point

/-- `CombatSystem.calculate_damage` : damage value together with the
updated system (the method also stores the style multiplier).
`10.0`, `0.3` appear as `10`, `3/10`. -/
def CombatSystem.calculate_damage (cs : CombatSystem K) (is_nape : Bool)
    (speed : K) : K × CombatSystem K :=
  let damage := if is_nape then cs.base_attack_damage * 10
    else cs.base_attack_damage * (3 / 10)
  if speed > styleSpeedThreshold then
    (damage * styleBonus, { cs with current_style_multiplier := styleBonus })
  else
    (damage, { cs with current_style_multiplier := 1 })

/-- `CombatSystem._update_combo_on_kill` (`current_time` is the
`time.time()` sample `now`). -/
def CombatSystem.update_combo_on_kill (cs : CombatSystem K) (now : K) :
    CombatSystem K :=
  if now - cs.last_kill_time ≤ cs.combo_timeout then
    { cs with combo_count := cs.combo_count + 1, last_kill_time := now }
  else
    { cs with combo_count := 1, last_kill_time := now }

/-- `CombatSystem.update_combo` : lazy combo timeout, checked each
frame (the `dt` parameter is unused by the source body as well). -/
def CombatSystem.update_combo (cs : CombatSystem K) (dt now : K) :
    CombatSystem K :=
  if cs.combo_count > 0 then
    if now - cs.last_kill_time > cs.combo_timeout then
      { cs with combo_count := 0 }
    else cs
  else cs

/-- `CombatSystem.get_score_multiplier` :
`min(1.0 + (combo - 1) * 0.1, 3.0)` when the combo is positive,
times the current style multiplier. -/
def CombatSystem.get_score_multiplier (cs : CombatSystem K) : K :=
  let combo_multiplier :=
    if cs.combo_count > 0 then
      min (1 + ((cs.combo_count : K) - 1) * (1 / 10)) 3
    else 1
  combo_multiplier * cs.current_style_multiplier

/-- `CombatSystem._calculate_kill_score` :
`int(BASE_KILL_SCORE * multiplier)`. -/
def CombatSystem.calculate_kill_score [FloorRing K] (cs : CombatSystem K) : ℤ :=
  pyInt (baseKillScore * cs.get_score_multiplier)

/-- `CombatSystem.perform_slash` : the full slash resolution.
Returns the `AttackResult` together with the updated combat system
and target hitbox. -/
def CombatSystem.perform_slash [FloorRing K] (m : MathOps K)
    (cs : CombatSystem K) (titan : TitanHitbox K) (hit_point : Vec3 K)
    (attack_speed : K) (now : K) :
    AttackResult K × CombatSystem K × TitanHitbox K :=
  if !cs.attack_enabled then (AttackResult.empty, cs, titan)
  else if !titan.is_alive then (AttackResult.empty, cs, titan)
  else
    let bd0 := cs.blade_durability - cs.durability_cost
    let cs1 := { cs with blade_durability := if bd0 < 0 then 0 else bd0 }
    let is_nape := CombatSystem.check_nape_hit m titan hit_point
    let dmgCs := cs1.calculate_damage is_nape attack_speed
    let killedTitan := titan.take_damage dmgCs.1 is_nape
    let result : AttackResult K :=
      { hit := true, damage := dmgCs.1, is_critical := is_nape,
        target_part := if is_nape then "nape" else "body",
        killed := killedTitan.1 }
    if killedTitan.1 then
      let cs3 := dmgCs.2.update_combo_on_kill now
      let score := cs3.calculate_kill_score
      (result, { cs3 with total_score := cs3.total_score + score },
        killedTitan.2)
    else
      (result, dmgCs.2, killedTitan.2)

/-- Concrete combat system with the configured defaults
(`BASE_ATTACK_DAMAGE = 50`, `DURABILITY_COST_PER_ATTACK = 10`,
`COMBO_TIMEOUT = 3`, `MAX_BLADE_DURABILITY = 100`). -/
def csSample : CombatSystem K :=
  { base_attack_damage := 50, durability_cost := 10, combo_timeout := 3,
    max_blade_durability := 100, blade_durability := 100, combo_count := 0,
    last_kill_time := 0, total_score := 0, attack_enabled_flag := true,
    current_style_multiplier := 1 }

/-- Concrete target titan of the spec scenario: health 100, nape
center `(0, 5, -1)` relative to position `(0, 0, 0)`, nape radius 1. -/
def titanSample : TitanHitbox K :=
  { position := ⟨0, 0, 0⟩, nape_center := ⟨0, 5, -1⟩, nape_radius := 1,
    health := 100, max_health := 100, is_alive := true }

/-! ## ODMSystem (`gameplay/odm_system.py`) -/

/-- Class constant `AIR_RESISTANCE = 0.02`. -/
def airResistance : K := 1 / 50

/-- Class constant `ROPE_STIFFNESS = 50.0`. -/
def ropeStiffness : K := 50

/-- Class constant `ROPE_DAMPING = 5.0`. -/
def ropeDamping : K := 5

/-- Class constant `GRAVITY = Vec3(0, -9.8, 0)`. -/
def gravityVec : Vec3 K := ⟨0, -(49 / 5), 0⟩

/-- `HookState` dataclass. -/
structure HookState (K : Type) where
  is_attached : Bool
  attach_point : Vec3 K
  rope_length : K
  tension : K

/-- The hook state produced by `HookState.reset` (also the dataclass
default construction). -/
def HookState.cleared : HookState K :=
  { is_attached := false, attach_point := 0, rope_length := 0, tension := 0 }

/-- `Surface` dataclass. -/
structure Surface (K : Type) where
  position : Vec3 K
  normal : Vec3 K
  is_valid : Bool

/-- Mutable state of `ODMSystem` (configuration, both hooks, motion
state, gas and the surface list supplied by the level). -/
structure ODMSystem (K : Type) where
  hook_range : K
  max_gas : K
  boost_cost : K
  boost_power : K
  left_hook : HookState K
  right_hook : HookState K
  position : Vec3 K
  velocity : Vec3 K
  gas_level : K
  surfaces : List (Surface K)

/-- `ODMSystem._get_hook` : `"left"` selects the left hook, anything
else the right hook. -/
def ODMSystem.get_hook (s : ODMSystem K) (hook_side : String) : HookState K :=
  if hook_side = "left" then s.left_hook else s.right_hook

/-- Writing back through the alias returned by `_get_hook` (Python
mutates the selected hook object in place). -/
def ODMSystem.set_hook (s : ODMSystem K) (hook_side : String)
    (h : HookState K) : ODMSystem K :=
  if hook_side = "left" then { s with left_hook := h }
  else { s with right_hook := h }

/-- `ODMSystem.release_hook` : resets the selected hook; position and
velocity are untouched. -/
def ODMSystem.release_hook (s : ODMSystem K) (hook_side : String) :
    ODMSystem K :=
  s.set_hook hook_side HookState.cleared

/-- The skip conditions of the surface loop in
`ODMSystem._find_attach_point`, complemented: a surface survives the
loop's `continue`s iff it is valid, within `hook_range`, and (when at
a non-zero distance) the normalized aim direction `dirn` dot the
normalized direction to it is at least 0.5. -/
def hookCandidate (m : MathOps K) (hook_range : K) (origin dirn : Vec3 K)
    (s : Surface K) : Prop :=
  s.is_valid = true ∧ (s.position - origin).magnitude m ≤ hook_range ∧
  ((s.position - origin).magnitude m > 0 →
    dirn.dot ((s.position - origin).normalized m) ≥ 1 / 2)

instance (m : MathOps K) (hook_range : K) (origin dirn : Vec3 K)
    (s : Surface K) : Decidable (hookCandidate m hook_range origin dirn s) := by
  unfold hookCandidate
  infer_instance

/-- The `for surface in self._surfaces` loop of
`ODMSystem._find_attach_point`, carrying `best_surface` and
`best_distance` (the initial `best_distance = float('inf')` is
modelled by `none`: the first candidate always becomes the best). -/
def findGo (m : MathOps K) (hook_range : K) (origin dirn : Vec3 K) :
    List (Surface K) → Option (Surface K × K) → Option (Surface K × K)
  | [], best => best
  | s :: rest, best =>
    if !s.is_valid then findGo m hook_range origin dirn rest best
    else
      let to_surface := s.position - origin
      let distance := to_surface.magnitude m
      if distance > hook_range then findGo m hook_range origin dirn rest best
      else if distance > 0 ∧ dirn.dot (to_surface.normalized m) < 1 / 2 then
        findGo m hook_range origin dirn rest best
      else
        match best with
        | none => findGo m hook_range origin dirn rest (some (s, distance))
        | some (b, bd) =>
          if distance < bd then
            findGo m hook_range origin dirn rest (some (s, distance))
          else findGo m hook_range origin dirn rest (some (b, bd))

/-- `ODMSystem._find_attach_point` : nearest valid surface in range
and roughly in the aimed direction, if any. -/
def ODMSystem.find_attach_point (m : MathOps K) (s : ODMSystem K)
    (origin direction : Vec3 K) : Option (Surface K) :=
  (findGo m s.hook_range origin (direction.normalized m) s.surfaces
    none).map Prod.fst

/-- `ODMSystem.fire_hook` : detaches the targeted side if attached,
searches for an attach point from the current position, and on
success attaches with `rope_length` the distance to the surface and
zero tension. -/
def ODMSystem.fire_hook (m : MathOps K) (s : ODMSystem K)
    (direction : Vec3 K) (hook_side : String) : Bool × ODMSystem K :=
  let s1 := if (s.get_hook hook_side).is_attached then
    s.release_hook hook_side else s
  match s1.find_attach_point m s1.position direction with
  | none => (false, s1)
  | some surf =>
    (true, s1.set_hook hook_side
      { is_attached := true, attach_point := surf.position,
        rope_length := (surf.position - s1.position).magnitude m,
        tension := 0 })

/-- `ODMSystem._apply_hook_constraint` : one-sided spring-damper rope
force on the given hook; reads the player position and the incoming
velocity, returns the updated hook (tension) and velocity. -/
def ODMSystem.apply_hook_constraint (m : MathOps K) (pos : Vec3 K) (dt : K)
    (hook : HookState K) (vel : Vec3 K) : HookState K × Vec3 K :=
  if !hook.is_attached then (hook, vel)
  else
    let to_attach := hook.attach_point - pos
    let current_distance := to_attach.magnitude m
    if current_distance < 1 / 1000 then (hook, vel)
    else
      let rope_direction := to_attach.normalized m
      if current_distance > hook.rope_length then
        let stretch := current_distance - hook.rope_length
        let spring_force := rope_direction * (stretch * ropeStiffness)
        let velocity_along_rope := rope_direction * (vel.dot rope_direction)
        let damping_force := velocity_along_rope * (-(ropeDamping : K))
        let total_force := spring_force + damping_force
        ({ hook with tension := stretch * ropeStiffness },
          vel + total_force * dt)
      else
        ({ hook with tension := 0 }, vel)

/-- `ODMSystem.update_swing_physics` : gravity, then the left and
right hook constraints, then air drag, then position integration. -/
def ODMSystem.update_swing_physics (m : MathOps K) (dt : K)
    (s : ODMSystem K) : ODMSystem K :=
  if dt ≤ 0 then s
  else
    let v1 := s.velocity + (gravityVec : Vec3 K) * dt
    let lh := ODMSystem.apply_hook_constraint m s.position dt s.left_hook v1
    let rh := ODMSystem.apply_hook_constraint m s.position dt s.right_hook lh.2
    let v4 := rh.2 + rh.2 * (-(airResistance : K))
    { s with left_hook := lh.1, right_hook := rh.1, velocity := v4,
             position := s.position + v4 * dt }

/-- The velocity value reached inside `update_swing_physics` after
gravity and both hook constraints, before drag (used to state the
order-of-operations claims). -/
def ODMSystem.post_hook_velocity (m : MathOps K) (dt : K)
    (s : ODMSystem K) : Vec3 K :=
  let v1 := s.velocity + (gravityVec : Vec3 K) * dt
  let lh := ODMSystem.apply_hook_constraint m s.position dt s.left_hook v1
  let rh := ODMSystem.apply_hook_constraint m s.position dt s.right_hook lh.2
  rh.2

/-- The state `fire_hook` works on after its release-if-attached
preamble (`s1` in the source body). -/
def preS (s : ODMSystem K) (side : String) : ODMSystem K :=
  if (s.get_hook side).is_attached then s.release_hook side else s

/-- Base ODM state used in concrete scenarios: configured defaults
(`HOOK_RANGE = 50`, `MAX_GAS = 100`, `BOOST_COST = 5`,
`BOOST_POWER = 20`), both hooks free, at the origin with velocity
`(1, 0, 0)` and no surfaces. -/
def odmSample : ODMSystem K :=
  { hook_range := 50, max_gas := 100, boost_cost := 5, boost_power := 20,
    left_hook := HookState.cleared, right_hook := HookState.cleared,
    position := ⟨0, 0, 0⟩, velocity := ⟨1, 0, 0⟩, gas_level := 100,
    surfaces := [] }

/-- Modelled from the spec (claim C5): a candidate surface is a valid
surface within `hook_range` whose normalized direction from the
player has dot-product at least 0.5 with the normalized aim
direction — with no exemption for a surface at distance 0 from the
player. -/
def specHookCandidate (m : MathOps K) (hook_range : K) (origin dirn : Vec3 K)
    (s : Surface K) : Prop :=
  s.is_valid = true ∧ (s.position - origin).magnitude m ≤ hook_range ∧
  dirn.dot ((s.position - origin).normalized m) ≥ 1 / 2

/-- Modelled from the spec (claim C3): a variant of
`update_swing_physics` whose drag step is scaled by `dt`
(`v *= (1 − AIR_RESISTANCE·dt)`), as the spec sentence describes;
compared against the code's update in the counterexample. -/
def ODMSystem.update_swing_physics_scaled_drag (m : MathOps K) (dt : K)
    (s : ODMSystem K) : ODMSystem K :=
  if dt ≤ 0 then s
  else
    let v1 := s.velocity + (gravityVec : Vec3 K) * dt
    let lh := ODMSystem.apply_hook_constraint m s.position dt s.left_hook v1
    let rh := ODMSystem.apply_hook_constraint m s.position dt s.right_hook lh.2
    let v4 := rh.2 * (1 - airResistance * dt)
    { s with left_hook := lh.1, right_hook := rh.1, velocity := v4,
             position := s.position + v4 * dt }

/-! ## TitanAI (`gameplay/titan_ai.py`)

The JSON data loading (`_load_titan_data`) is file I/O; the class
level caches it fills are modelled as explicit lookup-table arguments
to `TitanAI.init`.  Purely presentational `TitanData` fields (`name`,
`name_en`, `model`, `description`, `weak_points`, steam/harden/call/
throw extras) and the presentation callbacks are not used by any
embedded logic and are omitted.  Randomness (`random.random`,
`random.uniform`) is modelled by consuming values from an explicit
stream `ρ : List K`. -/

/-- `TitanType` enum. -/
inductive TitanType where
  | normal
  | abnormal
  | special
deriving DecidableEq

/-- `TitanState` enum. -/
inductive TitanState where
  | idle
  | wandering
  | pursuing
  | attacking
  | grabbing
  | stunned
  | dying
deriving DecidableEq

/-- `BehaviorPattern` dataclass. -/
structure BehaviorPattern (K : Type) where
  name : String
  description : String
  pursuit_style : String
  attack_frequency : K
  retreat_threshold : K
  direction_change_interval : K
  preferred_distance : K

/-- The fallback behavior pattern
`BehaviorPattern("standard", "默认行为", "direct", 1.0, 0.0)` used
when a behavior name is missing from the lookup table (dataclass
defaults 0.0 for the last two fields). -/
def standardPattern : BehaviorPattern K :=
  { name := "standard", description := "默认行为", pursuit_style := "direct",
    attack_frequency := 1, retreat_threshold := 0,
    direction_change_interval := 0, preferred_distance := 0 }

/-- `TitanData` dataclass (logic-relevant fields). -/
structure TitanData (K : Type) where
  id : String
  type : TitanType
  height : K
  health : K
  speed : K
  detection_range : K
  attack_range : K
  attack_damage : K
  grab_chance : K
  response_time : K
  behavior : String
  armor_reduction : K

/-- Mutable state of one `TitanAI` instance. -/
structure TitanAI (K : Type) where
  data : TitanData K
  behavior : BehaviorPattern K
  current_state : TitanState
  previous_state : TitanState
  position : Vec3 K
  target : Option (Vec3 K)
  health : K
  max_health : K
  is_alive : Bool
  nape_offset : Vec3 K
  nape_radius : K
  state_timer : K
  attack_cooldown : K
  response_timer : K
  direction_change_timer : K
  stun_timer : K
  velocity : Vec3 K
  wander_direction : Vec3 K

/-- `TitanAI.__init__` : unknown titan type identifiers raise
`ValueError` (modelled as `Except.error`); a missing behavior name
falls back to the standard pattern via `dict.get` with a default. -/
def TitanAI.init (titanCache : List (String × TitanData K))
    (behaviorCache : List (String × BehaviorPattern K))
    (titan_type_id : String) (position : Option (Vec3 K)) :
    Except String (TitanAI K) :=
  match titanCache.lookup titan_type_id with
  | none => .error ("Unknown titan type: " ++ titan_type_id)
  | some d =>
    .ok { data := d,
          behavior := (behaviorCache.lookup d.behavior).getD standardPattern,
          current_state := .idle, previous_state := .idle,
          position := position.getD ⟨0, 0, 0⟩, target := none,
          health := d.health, max_health := d.health, is_alive := true,
          nape_offset := ⟨0, d.height * (9 / 10), -(1 / 2)⟩,
          nape_radius := d.height * (1 / 10),
          state_timer := 0, attack_cooldown := 0, response_timer := 0,
          direction_change_timer := 0, stun_timer := 0,
          velocity := ⟨0, 0, 0⟩, wander_direction := ⟨1, 0, 0⟩ }

/-- The `'normal_3m'` entry of `_create_default_data`. -/
def normal3mData : TitanData K :=
  { id := "normal_3m", type := .normal, height := 3, health := 100,
    speed := 2, detection_range := 30, attack_range := 3,
    attack_damage := 20, grab_chance := 1 / 10, response_time := 1,
    behavior := "standard", armor_reduction := 0 }

/-- The titan lookup table built by `_create_default_data`. -/
def defaultTitanCache : List (String × TitanData K) :=
  [("normal_3m", normal3mData)]

/-- The behavior lookup table built by `_create_default_data`. -/
def defaultBehaviorCache : List (String × BehaviorPattern K) :=
  [("standard",
    { name := "standard", description := "标准行为模式",
      pursuit_style := "direct", attack_frequency := 1,
      retreat_threshold := 0, direction_change_interval := 0,
      preferred_distance := 0 })]

/-- `TitanAI._change_state` : no-op when the state is unchanged,
otherwise records the previous state and resets the state timer. -/
def TitanAI.change_state (t : TitanAI K) (new_state : TitanState) :
    TitanAI K :=
  if new_state = t.current_state then t
  else { t with previous_state := t.current_state,
                current_state := new_state, state_timer := 0 }

/-- The armor reduction applied at the top of `TitanAI.take_damage`
(special titans, non-nape hits only). -/
def TitanAI.effective_damage (t : TitanAI K) (damage : K) (hit_nape : Bool) :
    K :=
  if t.data.armor_reduction > 0 ∧ hit_nape = false then
    damage * (1 - t.data.armor_reduction)
  else damage

/-- `TitanAI.die` : clears `is_alive` and enters the terminal Dying
state (the death callback is presentation-only). -/
def TitanAI.die (t : TitanAI K) : TitanAI K :=
  TitanAI.change_state { t with is_alive := false } .dying

/-- `TitanAI._trigger_damage_response` : arms the response timer;
when the behavior has a retreat threshold and the health fraction has
fallen below it, stuns for 1 s; otherwise switches to Attacking. -/
def TitanAI.trigger_damage_response (t : TitanAI K) : TitanAI K :=
  let t1 := { t with response_timer := t.data.response_time }
  if t1.behavior.retreat_threshold > 0 ∧
      t1.health / t1.max_health < t1.behavior.retreat_threshold then
    TitanAI.change_state { t1 with stun_timer := 1 } .stunned
  else if t1.current_state ≠ .attacking then t1.change_state .attacking
  else t1

/-- `TitanAI.take_damage` : nape hits kill immediately; otherwise the
armor-reduced damage is subtracted, the damage response runs, and
death is checked. Returns whether the hit killed. -/
def TitanAI.take_damage (t : TitanAI K) (damage : K) (hit_nape : Bool) :
    Bool × TitanAI K :=
  if !t.is_alive then (false, t)
  else
    let dmg := t.effective_damage damage hit_nape
    if hit_nape then
      (true, TitanAI.die { t with health := 0, is_alive := false })
    else
      let t1 := { t with health := t.health - dmg }
      let t2 := t1.trigger_damage_response
      if t2.health ≤ 0 then
        (true, TitanAI.die { t2 with health := 0, is_alive := false })
      else (false, t2)

/-- The timer block at the top of `TitanAI.update` : state timer
accrual, cooldown/response decay, and stun expiry resuming the
previous state. -/
def TitanAI.update_timers (dt : K) (t : TitanAI K) : TitanAI K :=
  let t1 := { t with state_timer := t.state_timer + dt }
  let t2 := if t1.attack_cooldown > 0 then
    { t1 with attack_cooldown := t1.attack_cooldown - dt } else t1
  let t3 := if t2.response_timer > 0 then
    { t2 with response_timer := t2.response_timer - dt } else t2
  if t3.stun_timer > 0 then
    let t4 := { t3 with stun_timer := t3.stun_timer - dt }
    if t4.stun_timer ≤ 0 then t4.change_state t4.previous_state else t4
  else t3

/-- The `if player_position: self._target = player_position` step of
`TitanAI.update`. -/
def TitanAI.set_target (player_position : Option (Vec3 K)) (t : TitanAI K) :
    TitanAI K :=
  match player_position with
  | some p => { t with target := some p }
  | none => t

/-- The shared movement tail of `TitanAI.pursue_target`
(`velocity = direction * speed; position += velocity * dt`). -/
def TitanAI.move_pursue (t : TitanAI K) (direction : Vec3 K) (dt : K) :
    TitanAI K :=
  let v := direction * t.data.speed
  { t with velocity := v, position := t.position + v * dt }

/-- `TitanAI.pursue_target` : direct pursuit, erratic pursuit with a
random rotation (one stream draw for `random.uniform(-π/4, π/4)`), or
distance keeping. -/
def TitanAI.pursue_target (m : MathOps K) (t : TitanAI K) (dt : K)
    (ρ : List K) : TitanAI K × List K :=
  match t.target with
  | none => (t, ρ)
  | some tgt =>
    let direction := t.position.direction_to m tgt
    if t.behavior.pursuit_style = "erratic" then
      let t1 := { t with direction_change_timer :=
        t.direction_change_timer + dt }
      if t1.direction_change_timer ≥ t1.behavior.direction_change_interval then
        let t2 := { t1 with direction_change_timer := 0 }
        let angle := ρ.headD 0
        let dir2 : Vec3 K :=
          ⟨direction.x * m.cos angle - direction.z * m.sin angle,
           direction.y,
           direction.x * m.sin angle + direction.z * m.cos angle⟩
        (t2.move_pursue dir2 dt, ρ.tail)
      else (t1.move_pursue direction dt, ρ)
    else if t.behavior.pursuit_style = "maintain_distance" then
      let distance := t.position.distance_to m tgt
      let dir2 := if distance < t.behavior.preferred_distance then
        direction * (-1 : K) else direction
      (t.move_pursue dir2 dt, ρ)
    else (t.move_pursue direction dt, ρ)

/-- `TitanAI.perform_attack` : cooldown- and stun-gated; arms the
attack cooldown (`2 / attack_frequency`) and enters Attacking.
Returns whether the attack fired (the info dict is
presentation-only). -/
def TitanAI.perform_attack (t : TitanAI K) : Bool × TitanAI K :=
  if t.attack_cooldown > 0 then (false, t)
  else if t.current_state = .stunned then (false, t)
  else
    (true, TitanAI.change_state
      { t with attack_cooldown := 2 / t.behavior.attack_frequency } .attacking)

/-- `TitanAI.perform_grab` : cooldown-, stun- and chance-gated (one
stream draw for `random.random()`); arms a 3 s cooldown and enters
Grabbing. -/
def TitanAI.perform_grab (t : TitanAI K) (ρ : List K) :
    (Bool × TitanAI K) × List K :=
  if t.attack_cooldown > 0 then ((false, t), ρ)
  else if t.current_state = .stunned then ((false, t), ρ)
  else
    if ρ.headD 0 > t.data.grab_chance then ((false, t), ρ.tail)
    else
      ((true, TitanAI.change_state { t with attack_cooldown := 3 } .grabbing),
        ρ.tail)

/-- `TitanAI._behavior_idle` : wander after 3 s. -/
def TitanAI.behavior_idle (t : TitanAI K) : TitanAI K :=
  if t.state_timer > 3 then t.change_state .wandering else t

/-- `TitanAI._behavior_wandering` : occasional random direction
change (one stream draw for `random.uniform(0, 2π)`), slow drift. -/
def TitanAI.behavior_wandering (m : MathOps K) (dt : K) (t : TitanAI K)
    (ρ : List K) : TitanAI K × List K :=
  let t1 := { t with direction_change_timer := t.direction_change_timer + dt }
  let step : TitanAI K × List K :=
    if t1.direction_change_timer > 5 then
      ({ t1 with direction_change_timer := 0,
                 wander_direction := ⟨m.cos (ρ.headD 0), 0, m.sin (ρ.headD 0)⟩ },
        ρ.tail)
    else (t1, ρ)
  let v := step.1.wander_direction * (step.1.data.speed * (3 / 10))
  ({ step.1 with velocity := v, position := step.1.position + v * dt }, step.2)

/-- `TitanAI._behavior_pursuing` : attack or grab in range (one
stream draw chooses between them), otherwise keep pursuing; drop the
target when it is beyond 1.5× the detection range. -/
def TitanAI.behavior_pursuing (m : MathOps K) (dt : K) (t : TitanAI K)
    (ρ : List K) : TitanAI K × List K :=
  match t.target with
  | none => (t.change_state .wandering, ρ)
  | some tgt =>
    let distance := t.position.distance_to m tgt
    let step : TitanAI K × List K :=
      if distance ≤ t.data.attack_range then
        if t.attack_cooldown ≤ 0 then
          if ρ.headD 0 < t.data.grab_chance then
            let gr := t.perform_grab ρ.tail
            (gr.1.2, gr.2)
          else (t.perform_attack.2, ρ.tail)
        else (t, ρ)
      else t.pursue_target m dt ρ
    if distance > t.data.detection_range * (3 / 2) then
      (TitanAI.change_state { step.1 with target := none } .wandering, step.2)
    else step

/-- `TitanAI._behavior_attacking` : back to pursuit after the 1 s
attack animation. -/
def TitanAI.behavior_attacking (t : TitanAI K) : TitanAI K :=
  if t.state_timer > 1 then t.change_state .pursuing else t

/-- `TitanAI._behavior_grabbing` : back to pursuit after the 2 s grab
animation. -/
def TitanAI.behavior_grabbing (t : TitanAI K) : TitanAI K :=
  if t.state_timer > 2 then t.change_state .pursuing else t

/-- `TitanAI._execute_state_behavior` dispatch (Stunned and Dying do
nothing). -/
def TitanAI.execute_state_behavior (m : MathOps K) (dt : K) (t : TitanAI K)
    (ρ : List K) : TitanAI K × List K :=
  match t.current_state with
  | .idle => (t.behavior_idle, ρ)
  | .wandering => TitanAI.behavior_wandering m dt t ρ
  | .pursuing => TitanAI.behavior_pursuing m dt t ρ
  | .attacking => (t.behavior_attacking, ρ)
  | .grabbing => (t.behavior_grabbing, ρ)
  | .stunned => (t, ρ)
  | .dying => (t, ρ)

/-- `TitanAI.update` : no-op on dead titans; otherwise timers, target
refresh, then the current state's behavior. -/
def TitanAI.update (m : MathOps K) (dt : K)
    (player_position : Option (Vec3 K)) (t : TitanAI K) (ρ : List K) :
    TitanAI K × List K :=
  if !t.is_alive then (t, ρ)
  else
    TitanAI.execute_state_behavior m dt
      (TitanAI.set_target player_position (TitanAI.update_timers dt t)) ρ

/-- A saved vector from the save dictionary (each coordinate may be
missing, `dict.get` defaulting it to 0). -/
structure SavedVec (K : Type) where
  x : Option K
  y : Option K
  z : Option K

/-- The save dictionary consumed by `TitanAI.set_state`; each field
may be absent. -/
structure SavedTitanState (K : Type) where
  position : Option (SavedVec K)
  health : Option K
  current_state : Option String
  is_alive : Option Bool

/-- Parsing a state string through the `TitanState(...)` enum
constructor (raises → `none`). -/
def parseTitanState (s : String) : Option TitanState :=
  if s = "idle" then some .idle
  else if s = "wandering" then some .wandering
  else if s = "pursuing" then some .pursuing
  else if s = "attacking" then some .attacking
  else if s = "grabbing" then some .grabbing
  else if s = "stunned" then some .stunned
  else if s = "dying" then some .dying
  else none

/-- `TitanAI.set_state` (save restore): missing fields fall back to
defaults — notably `is_alive` defaults to `True`, and an unparsable
state string falls back to Idle. -/
def TitanAI.set_state (t : TitanAI K) (st : SavedTitanState K) : TitanAI K :=
  let pos := st.position.getD ⟨none, none, none⟩
  { t with
    position := ⟨pos.x.getD 0, pos.y.getD 0, pos.z.getD 0⟩,
    health := st.health.getD t.max_health,
    is_alive := st.is_alive.getD true,
    current_state := (parseTitanState (st.current_state.getD "idle")).getD .idle }

/-- A live sample titan built from the `normal_3m` default data and
the standard behavior pattern (as `TitanAI.init` would produce at the
origin). -/
def titanAISample : TitanAI K :=
  { data := normal3mData, behavior := standardPattern,
    current_state := .idle, previous_state := .idle,
    position := ⟨0, 0, 0⟩, target := none,
    health := 100, max_health := 100, is_alive := true,
    nape_offset := ⟨0, 3 * (9 / 10), -(1 / 2)⟩, nape_radius := 3 * (1 / 10),
    state_timer := 0, attack_cooldown := 0, response_timer := 0,
    direction_change_timer := 0, stun_timer := 0,
    velocity := ⟨0, 0, 0⟩, wander_direction := ⟨1, 0, 0⟩ }

/-- A behavior pattern with a positive retreat threshold (0.5), for
exercising the stun response. -/
def cautiousPattern : BehaviorPattern K :=
  { name := "cautious", description := "", pursuit_style := "direct",
    attack_frequency := 1, retreat_threshold := 1 / 2,
    direction_change_interval := 0, preferred_distance := 0 }

/-- A titan entry whose behavior name is not in the behavior lookup
table. -/
def abnormal7mData : TitanData K :=
  { id := "abnormal_7m", type := .abnormal, height := 7, health := 150,
    speed := 4, detection_range := 40, attack_range := 4,
    attack_damage := 30, grab_chance := 3 / 10, response_time := 1 / 2,
    behavior := "aggressive", armor_reduction := 0 }

/-! ## Player capture QTE (`gameplay/player.py`)

Only the capture/QTE slice of `Player` is embedded: the fields read
or written by `process_qte_input` and `_escape_grab` (the full class
additionally aggregates the ODM, combat and resource systems, which
this path does not touch; the QTE callbacks are presentation-only). -/

/-- `PlayerState` enum. -/
inductive PlayerState where
  | idle
  | moving
  | airborne
  | swinging
  | attacking
  | grabbed
  | dead
deriving DecidableEq

/-- Python's `str.lower()` : `Char.toLower` over the characters
(kernel-reducible, unlike `String.toLower`). -/
def strLower (s : String) : String := String.mk (s.data.map Char.toLower)

/-- `QTEEvent` dataclass. -/
structure QTEEvent (K : Type) where
  required_key : String
  time_limit : K
  elapsed_time : K
  success : Bool
  failed : Bool

/-- `QTEEvent.is_active` : neither succeeded nor failed yet. -/
def QTEEvent.is_active (q : QTEEvent K) : Bool := !q.success && !q.failed

/-- `QTEEvent.check_input` : case-insensitive comparison with the
required key (`key.lower() == required_key.lower()`); a match records
success. -/
def QTEEvent.check_input (q : QTEEvent K) (key : String) :
    Bool × QTEEvent K :=
  if strLower key = strLower q.required_key then
    (true, { q with success := true })
  else (false, q)

/-- `QTEEvent.update` : accrues time and marks failure at the time
limit. -/
def QTEEvent.update (q : QTEEvent K) (dt : K) : QTEEvent K :=
  let q1 := { q with elapsed_time := q.elapsed_time + dt }
  if q1.elapsed_time ≥ q1.time_limit then { q1 with failed := true } else q1

/-- The capture/QTE slice of the `Player` state. -/
structure Player (K : Type) where
  current_state : PlayerState
  velocity : Vec3 K
  grabbing_titan : Bool
  current_qte : Option (QTEEvent K)

/-- `Player._escape_grab` : airborne, escape impulse `(0, 5, -3)`,
grab and QTE cleared (the result callback is presentation-only). -/
def Player.escape_grab (p : Player K) : Player K :=
  { p with current_state := .airborne, grabbing_titan := false,
           velocity := ⟨0, 5, -3⟩, current_qte := none }

/-- `Player.process_qte_input` : fails with no active QTE; otherwise
runs `check_input` and escapes on success. -/
def Player.process_qte_input (p : Player K) (key : String) :
    Bool × Player K :=
  match p.current_qte with
  | none => (false, p)
  | some q =>
    if !q.is_active then (false, p)
    else
      let res := q.check_input key
      if res.1 then
        (true, Player.escape_grab { p with current_qte := some res.2 })
      else (false, { p with current_qte := some res.2 })

/-- The grabbed sample player: an active QTE requiring `"e"` with a
2 s limit. -/
def playerSample : Player K :=
  { current_state := .grabbed, velocity := ⟨0, 0, 0⟩, grabbing_titan := true,
    current_qte := some { required_key := "e", time_limit := 2,
                          elapsed_time := 0, success := false,
                          failed := false } }

/-! ## Theorems settling the claims, with their supporting lemmas and witnesses -/

/-- C8: for every resource state and every amount that is negative or
exceeds the current level, `consume_gas` and
`consume_blade_durability` return `false` and leave the state
completely unchanged. -/
theorem consume_rejects_invalid_amount (rs : ResourceSystem ℝ) (amount : ℝ) :
    (amount < 0 ∨ amount > rs.gas_level →
      rs.consume_gas amount = (false, rs)) ∧
    (amount < 0 ∨ amount > rs.blade_durability →
      rs.consume_blade_durability amount = (false, rs)) := by
  constructor
  · intro h
    rcases h with h | h
    · simp [ResourceSystem.consume_gas, h]
    · by_cases h0 : amount < 0
      · simp [ResourceSystem.consume_gas, h0]
      · rw [ResourceSystem.consume_gas, if_neg h0, if_neg (by simp; linarith)]
  · intro h
    rcases h with h | h
    · simp [ResourceSystem.consume_blade_durability, h]
    · by_cases h0 : amount < 0
      · simp [ResourceSystem.consume_blade_durability, h0]
      · rw [ResourceSystem.consume_blade_durability, if_neg h0,
          if_neg (by simp; linarith)]

/-- Witness for C8 at a concrete state: a negative gas amount and an
over-level durability amount are both rejected without a state
change. -/
theorem consume_rejects_invalid_amount_witness :
    (rsSample : ResourceSystem ℝ).consume_gas (-1) = (false, rsSample) ∧
    (rsSample : ResourceSystem ℝ).consume_blade_durability 250 = (false, rsSample) :=
  ⟨(consume_rejects_invalid_amount rsSample (-1)).1 (Or.inl (by norm_num)),
   (consume_rejects_invalid_amount rsSample 250).2
     (Or.inr (by norm_num [rsSample]))⟩

/-- C1: a slash whose hit point lies within `nape_radius` of the
absolute nape position always reports `killed = true`, for every
living target and every combat system with attacks enabled,
regardless of the target's prior health. -/
theorem nape_hit_always_kills (cs : CombatSystem ℝ) (titan : TitanHitbox ℝ)
    (hit_point : Vec3 ℝ) (attack_speed now : ℝ)
    (halive : titan.is_alive = true)
    (henabled : cs.attack_enabled = true)
    (hnape : hit_point.distance_to ⟨Real.sqrt, Real.cos, Real.sin⟩
      titan.get_absolute_nape_position ≤ titan.nape_radius) :
    (CombatSystem.perform_slash ⟨Real.sqrt, Real.cos, Real.sin⟩ cs titan
      hit_point attack_speed now).1.killed = true := by
  have hn : CombatSystem.check_nape_hit
      (⟨Real.sqrt, Real.cos, Real.sin⟩ : MathOps ℝ) titan hit_point = true := by
    simp [CombatSystem.check_nape_hit, TitanHitbox.is_point_in_nape, hnape]
  simp [CombatSystem.perform_slash, henabled, halive, hn,
    TitanHitbox.take_damage]

/-- Witness for C1: hitting the nape center exactly kills the sample
titan whose health is still at its maximum. -/
theorem nape_hit_always_kills_witness :
    (CombatSystem.perform_slash ⟨Real.sqrt, Real.cos, Real.sin⟩ csSample
      titanSample ⟨0, 5, -1⟩ 0 1000).1.killed = true :=
  nape_hit_always_kills csSample titanSample ⟨0, 5, -1⟩ 0 1000
    (by simp [titanSample])
    (by simp [CombatSystem.attack_enabled, csSample])
    (by simp [Vec3.distance_to, titanSample,
        TitanHitbox.get_absolute_nape_position])

/-- C6: on a kill, the combo count increments by 1 when the gap since
the previous kill is within `combo_timeout` and resets to 1 when the
gap exceeds it; independently, the per-frame `update_combo` resets
the count to 0 whenever the time since the last kill exceeds
`combo_timeout`. -/
theorem combo_window_and_lazy_timeout (cs : CombatSystem ℝ) (now dt : ℝ) :
    (now - cs.last_kill_time ≤ cs.combo_timeout →
      (cs.update_combo_on_kill now).combo_count = cs.combo_count + 1) ∧
    (now - cs.last_kill_time > cs.combo_timeout →
      (cs.update_combo_on_kill now).combo_count = 1) ∧
    (0 ≤ cs.combo_count → now - cs.last_kill_time > cs.combo_timeout →
      (cs.update_combo dt now).combo_count = 0) := by
  refine ⟨fun h => ?_, fun h => ?_, fun hc h => ?_⟩
  · simp [CombatSystem.update_combo_on_kill, h]
  · simp [CombatSystem.update_combo_on_kill, not_le.mpr h]
  · rcases lt_or_eq_of_le hc with hpos | hzero
    · simp [CombatSystem.update_combo, hpos, h]
    · simp [CombatSystem.update_combo, ← hzero]

/-- Witness for C6, replaying the spec example with
`combo_timeout = 3`: a kill 2 s after the previous one increments the
combo, a kill 6 s after resets it to 1, and `update_combo` 6 s after
the last kill clears it to 0. -/
theorem combo_window_and_lazy_timeout_witness :
    (({ csSample with combo_count := 1 } : CombatSystem ℝ).update_combo_on_kill
      2).combo_count = 2 ∧
    (({ csSample with combo_count := 2, last_kill_time := 2 } :
      CombatSystem ℝ).update_combo_on_kill 6).combo_count = 1 ∧
    (({ csSample with combo_count := 2, last_kill_time := 2 } :
      CombatSystem ℝ).update_combo (1/60) 6).combo_count = 0 :=
  ⟨(combo_window_and_lazy_timeout { csSample with combo_count := 1 } 2
      (1/60)).1 (by norm_num [csSample]),
   (combo_window_and_lazy_timeout
      { csSample with combo_count := 2, last_kill_time := 2 } 6 (1/60)).2.1
      (by norm_num [csSample]),
   (combo_window_and_lazy_timeout
      { csSample with combo_count := 2, last_kill_time := 2 } 6 (1/60)).2.2
      (by norm_num [csSample]) (by norm_num [csSample])⟩

/-- A surface survives all three `continue` guards of the search loop
iff it is a `hookCandidate`. -/
lemma surface_kept_iff (m : MathOps K) (r : K) (o d : Vec3 K) (s : Surface K) :
    hookCandidate m r o d s ↔
      ¬ ((!s.is_valid) = true) ∧ ¬ ((s.position - o).magnitude m > r) ∧
      ¬ ((s.position - o).magnitude m > 0 ∧
         d.dot ((s.position - o).normalized m) < 1 / 2) := by
  constructor
  · rintro ⟨hv, hr, hd⟩
    refine ⟨by simp [hv], not_lt.mpr hr, ?_⟩
    rintro ⟨hpos, hdot⟩
    exact absurd hdot (not_lt.mpr (hd hpos))
  · rintro ⟨hv, hr, hd⟩
    refine ⟨?_, not_lt.mp hr, fun hpos => ?_⟩
    · revert hv; cases s.is_valid <;> simp
    · by_contra hlt
      exact hd ⟨hpos, not_le.mp hlt⟩

/-- A non-candidate surface is skipped by the search loop. -/
lemma findGo_skip (m : MathOps K) (r : K) (o d : Vec3 K) {s : Surface K}
    (hncand : ¬ hookCandidate m r o d s) (rest : List (Surface K))
    (acc : Option (Surface K × K)) :
    findGo m r o d (s :: rest) acc = findGo m r o d rest acc := by
  by_cases hv : (!s.is_valid) = true
  · simp only [findGo]
    rw [if_pos hv]
  · by_cases hr : (s.position - o).magnitude m > r
    · simp only [findGo]
      rw [if_neg hv, if_pos hr]
    · by_cases hd : (s.position - o).magnitude m > 0 ∧
        d.dot ((s.position - o).normalized m) < 1 / 2
      · simp only [findGo]
        rw [if_neg hv, if_neg hr, if_pos hd]
      · exact absurd ((surface_kept_iff m r o d s).mpr ⟨hv, hr, hd⟩) hncand

/-- A candidate surface becomes the best when there is no best yet. -/
lemma findGo_keep_none (m : MathOps K) (r : K) (o d : Vec3 K) {s : Surface K}
    (hcand : hookCandidate m r o d s) (rest : List (Surface K)) :
    findGo m r o d (s :: rest) none =
      findGo m r o d rest (some (s, (s.position - o).magnitude m)) := by
  obtain ⟨hv, hr, hd⟩ := (surface_kept_iff m r o d s).mp hcand
  simp only [findGo]
  rw [if_neg hv, if_neg hr, if_neg hd]

/-- A candidate surface replaces the current best exactly when it is
strictly closer. -/
lemma findGo_keep_some (m : MathOps K) (r : K) (o d : Vec3 K) {s : Surface K}
    (hcand : hookCandidate m r o d s) (rest : List (Surface K))
    (b0 : Surface K) (d0 : K) :
    findGo m r o d (s :: rest) (some (b0, d0)) =
      if (s.position - o).magnitude m < d0 then
        findGo m r o d rest (some (s, (s.position - o).magnitude m))
      else findGo m r o d rest (some (b0, d0)) := by
  obtain ⟨hv, hr, hd⟩ := (surface_kept_iff m r o d s).mp hcand
  simp only [findGo]
  rw [if_neg hv, if_neg hr, if_neg hd]

/-- Full characterization of the search loop: it returns `none` iff
it started with no best and no candidate occurs; any returned best is
a candidate from the list (or the initial best), carries its own
distance, and is at minimal distance among all candidates of the
list and the initial best. -/
lemma findGo_characterize (m : MathOps K) (r : K) (o d : Vec3 K) :
    ∀ (ss : List (Surface K)) (acc : Option (Surface K × K)),
      (∀ p ∈ acc, p.2 = (p.1.position - o).magnitude m) →
      ((findGo m r o d ss acc = none ↔
         acc = none ∧ ∀ s ∈ ss, ¬ hookCandidate m r o d s) ∧
       (∀ b bd, findGo m r o d ss acc = some (b, bd) →
         bd = (b.position - o).magnitude m ∧
         (some (b, bd) = acc ∨ (b ∈ ss ∧ hookCandidate m r o d b)) ∧
         (∀ s ∈ ss, hookCandidate m r o d s →
           bd ≤ (s.position - o).magnitude m) ∧
         (∀ p ∈ acc, bd ≤ p.2))) := by
  intro ss
  induction ss with
  | nil =>
    intro acc hacc
    refine ⟨by simp [findGo], fun b bd hres => ?_⟩
    rw [show findGo m r o d [] acc = acc from rfl] at hres
    subst hres
    refine ⟨hacc (b, bd) (by simp), Or.inl rfl, by simp, ?_⟩
    intro p hp
    have hpe : (b, bd) = p := by simpa using hp
    rw [← hpe]
  | cons s rest ih =>
    intro acc hacc
    by_cases hcand : hookCandidate m r o d s
    · -- the head surface is a candidate
      cases acc with
      | none =>
        rw [findGo_keep_none m r o d hcand rest]
        have hacc2 : ∀ p ∈ (some (s, (s.position - o).magnitude m)),
            p.2 = (p.1.position - o).magnitude m := by simp
        obtain ⟨ihnone, ihsome⟩ := ih _ hacc2
        constructor
        · rw [ihnone]
          simp [hcand, List.forall_mem_cons]
        · intro b bd hres
          obtain ⟨hbd, hsrc, hmin, haccb⟩ := ihsome b bd hres
          have hbds : bd ≤ (s.position - o).magnitude m :=
              haccb (s, (s.position - o).magnitude m) (by simp)
          refine ⟨hbd, ?_, ?_, by intro p hp; simp at hp⟩
          · rcases hsrc with hsrc | hsrc
            · right
              have hbs : b = s ∧ bd = (s.position - o).magnitude m := by
                simpa using hsrc
              rw [hbs.1]
              exact ⟨List.mem_cons_self _ _, hcand⟩
            · exact Or.inr ⟨List.mem_cons_of_mem _ hsrc.1, hsrc.2⟩
          · intro t ht hcandt
            rcases List.mem_cons.mp ht with rfl | ht
            · exact hbds
            · exact hmin t ht hcandt
      | some p0 =>
        obtain ⟨b0, d0⟩ := p0
        have hd0 : d0 = (b0.position - o).magnitude m := hacc (b0, d0) (by simp)
        rw [findGo_keep_some m r o d hcand rest b0 d0]
        by_cases hlt : (s.position - o).magnitude m < d0
        · rw [if_pos hlt]
          have hacc2 : ∀ p ∈ (some (s, (s.position - o).magnitude m)),
              p.2 = (p.1.position - o).magnitude m := by simp
          obtain ⟨ihnone, ihsome⟩ := ih _ hacc2
          constructor
          · rw [ihnone]
            simp [hcand, List.forall_mem_cons]
          · intro b bd hres
            obtain ⟨hbd, hsrc, hmin, haccb⟩ := ihsome b bd hres
            have hbds : bd ≤ (s.position - o).magnitude m :=
              haccb (s, (s.position - o).magnitude m) (by simp)
            refine ⟨hbd, ?_, ?_, ?_⟩
            · rcases hsrc with hsrc | hsrc
              · right
                have hbs : b = s ∧ bd = (s.position - o).magnitude m := by
                  simpa using hsrc
                rw [hbs.1]
                exact ⟨List.mem_cons_self _ _, hcand⟩
              · exact Or.inr ⟨List.mem_cons_of_mem _ hsrc.1, hsrc.2⟩
            · intro t ht hcandt
              rcases List.mem_cons.mp ht with rfl | ht
              · exact hbds
              · exact hmin t ht hcandt
            · intro p hp
              have hpe : (b0, d0) = p := by simpa using hp
              rw [← hpe]
              exact le_trans hbds (le_of_lt hlt)
        · rw [if_neg hlt]
          obtain ⟨ihnone, ihsome⟩ := ih (some (b0, d0)) hacc
          constructor
          · rw [ihnone]
            simp [hcand, List.forall_mem_cons]
          · intro b bd hres
            obtain ⟨hbd, hsrc, hmin, haccb⟩ := ihsome b bd hres
            have hbd0 : bd ≤ d0 := haccb (b0, d0) (by simp)
            refine ⟨hbd, ?_, ?_, ?_⟩
            · rcases hsrc with hsrc | hsrc
              · exact Or.inl hsrc
              · exact Or.inr ⟨List.mem_cons_of_mem _ hsrc.1, hsrc.2⟩
            · intro t ht hcandt
              rcases List.mem_cons.mp ht with rfl | ht
              · exact le_trans hbd0 (not_lt.mp hlt)
              · exact hmin t ht hcandt
            · intro p hp
              have hpe : (b0, d0) = p := by simpa using hp
              rw [← hpe]
              exact hbd0
    · -- the head surface is skipped
      rw [findGo_skip m r o d hcand rest acc]
      obtain ⟨ihnone, ihsome⟩ := ih acc hacc
      constructor
      · rw [ihnone]
        constructor
        · rintro ⟨h1, h2⟩
          refine ⟨h1, fun t ht => ?_⟩
          rcases List.mem_cons.mp ht with rfl | ht
          · exact hcand
          · exact h2 t ht
        · rintro ⟨h1, h2⟩
          exact ⟨h1, fun t ht => h2 t (List.mem_cons_of_mem _ ht)⟩
      · intro b bd hres
        obtain ⟨hbd, hsrc, hmin, haccb⟩ := ihsome b bd hres
        refine ⟨hbd, ?_, ?_, haccb⟩
        · rcases hsrc with hsrc | hsrc
          · exact Or.inl hsrc
          · exact Or.inr ⟨List.mem_cons_of_mem _ hsrc.1, hsrc.2⟩
        · intro t ht hcandt
          rcases List.mem_cons.mp ht with rfl | ht
          · exact absurd hcandt hcand
          · exact hmin t ht hcandt

/-- Componentwise form of vector addition (the `Add` instance). -/
lemma Vec3.add_def (a b : Vec3 K) :
    a + b = ⟨a.x + b.x, a.y + b.y, a.z + b.z⟩ := rfl

/-- Componentwise form of vector subtraction (the `Sub` instance). -/
lemma Vec3.sub_def (a b : Vec3 K) :
    a - b = ⟨a.x - b.x, a.y - b.y, a.z - b.z⟩ := rfl

/-- Componentwise form of the scalar multiplication instance. -/
lemma Vec3.mul_def (a : Vec3 K) (s : K) :
    a * s = ⟨a.x * s, a.y * s, a.z * s⟩ := rfl

/-- Componentwise form of the zero vector. -/
lemma Vec3.zero_def : (0 : Vec3 K) = ⟨0, 0, 0⟩ := rfl

/-- `set_hook` only touches the hooks: position, velocity, surfaces
and configuration are preserved. -/
lemma ODMSystem.set_hook_preserves (s : ODMSystem K) (side : String)
    (h : HookState K) :
    (s.set_hook side h).position = s.position ∧
    (s.set_hook side h).velocity = s.velocity ∧
    (s.set_hook side h).surfaces = s.surfaces ∧
    (s.set_hook side h).hook_range = s.hook_range := by
  unfold ODMSystem.set_hook
  split <;> exact ⟨rfl, rfl, rfl, rfl⟩

/-- Reading back the hook just written by `set_hook`. -/
lemma ODMSystem.get_set_hook (s : ODMSystem K) (side : String)
    (h : HookState K) : (s.set_hook side h).get_hook side = h := by
  unfold ODMSystem.set_hook ODMSystem.get_hook
  by_cases hs : side = "left" <;> simp [hs]

/-- `find_attach_point` returns nothing iff no surface of the system
is a candidate. -/
lemma find_attach_point_none_iff (m : MathOps K) (s : ODMSystem K)
    (origin dir : Vec3 K) :
    s.find_attach_point m origin dir = none ↔
      ∀ surf ∈ s.surfaces,
        ¬ hookCandidate m s.hook_range origin (dir.normalized m) surf := by
  obtain ⟨hn, -⟩ := findGo_characterize m s.hook_range origin
    (dir.normalized m) s.surfaces none (by intro p hp; simp at hp)
  unfold ODMSystem.find_attach_point
  rw [Option.map_eq_none', hn]
  simp

/-- Any surface returned by `find_attach_point` is a candidate of the
system and is at minimal distance among all candidates. -/
lemma find_attach_point_some_spec (m : MathOps K) (s : ODMSystem K)
    (origin dir : Vec3 K) (surf : Surface K)
    (h : s.find_attach_point m origin dir = some surf) :
    surf ∈ s.surfaces ∧
    hookCandidate m s.hook_range origin (dir.normalized m) surf ∧
    ∀ t ∈ s.surfaces, hookCandidate m s.hook_range origin (dir.normalized m) t →
      (surf.position - origin).magnitude m ≤ (t.position - origin).magnitude m := by
  unfold ODMSystem.find_attach_point at h
  cases hres : findGo m s.hook_range origin (dir.normalized m) s.surfaces none with
  | none => rw [hres] at h; simp at h
  | some p =>
    obtain ⟨b, bd⟩ := p
    rw [hres] at h
    simp only [Option.map_some'] at h
    have hb : b = surf := by simpa using h
    obtain ⟨-, hsome⟩ := findGo_characterize m s.hook_range origin
      (dir.normalized m) s.surfaces none (by intro p hp; simp at hp)
    obtain ⟨hbd, hsrc, hmin, -⟩ := hsome b bd hres
    rcases hsrc with hsrc | hsrc
    · simp at hsrc
    · subst hb
      refine ⟨hsrc.1, hsrc.2, fun t ht hc => ?_⟩
      rw [← hbd]
      exact hmin t ht hc

/-- `release_hook` preserves everything except the selected hook. -/
lemma release_hook_preserves (s : ODMSystem K) (side : String) :
    (s.release_hook side).position = s.position ∧
    (s.release_hook side).velocity = s.velocity ∧
    (s.release_hook side).surfaces = s.surfaces ∧
    (s.release_hook side).hook_range = s.hook_range :=
  ODMSystem.set_hook_preserves s side HookState.cleared

/-- The release preamble preserves position, velocity, surfaces and
configuration. -/
lemma preS_fields (s : ODMSystem K) (side : String) :
    (preS s side).position = s.position ∧
    (preS s side).velocity = s.velocity ∧
    (preS s side).surfaces = s.surfaces ∧
    (preS s side).hook_range = s.hook_range := by
  unfold preS
  split
  · exact release_hook_preserves s side
  · exact ⟨rfl, rfl, rfl, rfl⟩

/-- `fire_hook` unfolded through the release preamble. -/
lemma fire_hook_eq_match (m : MathOps K) (s : ODMSystem K)
    (direction : Vec3 K) (side : String) :
    s.fire_hook m direction side =
      match (preS s side).find_attach_point m (preS s side).position direction with
      | none => (false, preS s side)
      | some surf =>
        (true, (preS s side).set_hook side
          { is_attached := true, attach_point := surf.position,
            rope_length := (surf.position - (preS s side).position).magnitude m,
            tension := 0 }) := rfl

/-- C5 (amended): `fire_hook` searches the valid surfaces within
`hook_range` whose normalized direction from the player has
dot-product at least 0.5 with the normalized aim direction, except
that a surface at distance 0 from the player skips the direction
check and is always a candidate; among the candidates it attaches the
targeted hook to one at minimal distance with `rope_length` exactly
that distance and `tension = 0`, returning `true`; with no candidate
it returns `false`. -/
theorem fire_hook_attaches_nearest (m : MathOps ℝ) (s : ODMSystem ℝ)
    (direction : Vec3 ℝ) (side : String)
    (hm : m = ⟨Real.sqrt, Real.cos, Real.sin⟩) :
    ((∀ surf ∈ s.surfaces,
        ¬ hookCandidate m s.hook_range s.position (direction.normalized m) surf) →
      (s.fire_hook m direction side).1 = false) ∧
    (∀ surf0 ∈ s.surfaces,
      hookCandidate m s.hook_range s.position (direction.normalized m) surf0 →
      (s.fire_hook m direction side).1 = true ∧
      ∃ surf ∈ s.surfaces,
        hookCandidate m s.hook_range s.position (direction.normalized m) surf ∧
        (s.fire_hook m direction side).2.get_hook side =
          { is_attached := true, attach_point := surf.position,
            rope_length := (surf.position - s.position).magnitude m,
            tension := 0 } ∧
        ∀ t ∈ s.surfaces,
          hookCandidate m s.hook_range s.position (direction.normalized m) t →
          (surf.position - s.position).magnitude m ≤
            (t.position - s.position).magnitude m) := by
  obtain ⟨hpos, -, hsurf, hrange⟩ := preS_fields s side
  constructor
  · intro hno
    have hfind : (preS s side).find_attach_point m (preS s side).position
        direction = none := by
      rw [find_attach_point_none_iff]
      intro surf hs
      rw [hsurf] at hs
      rw [hpos, hrange]
      exact hno surf hs
    rw [fire_hook_eq_match, hfind]
  · intro surf0 hsurf0 hcand0
    cases hfind : (preS s side).find_attach_point m (preS s side).position
        direction with
    | none =>
      exfalso
      rw [find_attach_point_none_iff] at hfind
      refine hfind surf0 (by rw [hsurf]; exact hsurf0) ?_
      rw [hpos, hrange]
      exact hcand0
    | some surf =>
      obtain ⟨hmem, hcand, hmin⟩ :=
        find_attach_point_some_spec m (preS s side) _ direction surf hfind
      rw [hsurf] at hmem
      rw [hpos, hrange] at hcand
      constructor
      · rw [fire_hook_eq_match, hfind]
      · refine ⟨surf, hmem, hcand, ?_, ?_⟩
        · rw [fire_hook_eq_match, hfind]
          show ((preS s side).set_hook side _).get_hook side = _
          rw [ODMSystem.get_set_hook, hpos]
        · intro t ht hcandt
          have := hmin t (by rw [hsurf]; exact ht)
            (by rw [hpos, hrange]; exact hcandt)
          rw [hpos] at this
          exact this

/-- Witness for C5 at a concrete scene: one valid surface 30 m
straight ahead, aimed at exactly, is attached with
`rope_length = 30`. -/
theorem fire_hook_attaches_nearest_witness :
    (ODMSystem.fire_hook ⟨Real.sqrt, Real.cos, Real.sin⟩
      { odmSample with surfaces := [⟨⟨30, 0, 0⟩, ⟨0, 1, 0⟩, true⟩] }
      ⟨1, 0, 0⟩ "right").1 = true ∧
    ∃ surf ∈ ({ odmSample with
        surfaces := [⟨⟨30, 0, 0⟩, ⟨0, 1, 0⟩, true⟩] } : ODMSystem ℝ).surfaces,
      hookCandidate ⟨Real.sqrt, Real.cos, Real.sin⟩
        ({ odmSample with surfaces := [⟨⟨30, 0, 0⟩, ⟨0, 1, 0⟩, true⟩] } :
          ODMSystem ℝ).hook_range
        ({ odmSample with surfaces := [⟨⟨30, 0, 0⟩, ⟨0, 1, 0⟩, true⟩] } :
          ODMSystem ℝ).position
        (Vec3.normalized ⟨Real.sqrt, Real.cos, Real.sin⟩ ⟨1, 0, 0⟩) surf ∧
      (ODMSystem.fire_hook ⟨Real.sqrt, Real.cos, Real.sin⟩
        { odmSample with surfaces := [⟨⟨30, 0, 0⟩, ⟨0, 1, 0⟩, true⟩] }
        ⟨1, 0, 0⟩ "right").2.get_hook "right" =
        { is_attached := true, attach_point := surf.position,
          rope_length := (surf.position -
            ({ odmSample with surfaces := [⟨⟨30, 0, 0⟩, ⟨0, 1, 0⟩, true⟩] } :
              ODMSystem ℝ).position).magnitude
            ⟨Real.sqrt, Real.cos, Real.sin⟩,
          tension := 0 } ∧
      ∀ t ∈ ({ odmSample with
          surfaces := [⟨⟨30, 0, 0⟩, ⟨0, 1, 0⟩, true⟩] } : ODMSystem ℝ).surfaces,
        hookCandidate ⟨Real.sqrt, Real.cos, Real.sin⟩
          ({ odmSample with surfaces := [⟨⟨30, 0, 0⟩, ⟨0, 1, 0⟩, true⟩] } :
            ODMSystem ℝ).hook_range
          ({ odmSample with surfaces := [⟨⟨30, 0, 0⟩, ⟨0, 1, 0⟩, true⟩] } :
            ODMSystem ℝ).position
          (Vec3.normalized ⟨Real.sqrt, Real.cos, Real.sin⟩ ⟨1, 0, 0⟩) t →
        (surf.position -
          ({ odmSample with surfaces := [⟨⟨30, 0, 0⟩, ⟨0, 1, 0⟩, true⟩] } :
            ODMSystem ℝ).position).magnitude ⟨Real.sqrt, Real.cos, Real.sin⟩ ≤
        (t.position -
          ({ odmSample with surfaces := [⟨⟨30, 0, 0⟩, ⟨0, 1, 0⟩, true⟩] } :
            ODMSystem ℝ).position).magnitude ⟨Real.sqrt, Real.cos, Real.sin⟩ :=
  (fire_hook_attaches_nearest ⟨Real.sqrt, Real.cos, Real.sin⟩
    { odmSample with surfaces := [⟨⟨30, 0, 0⟩, ⟨0, 1, 0⟩, true⟩] }
    ⟨1, 0, 0⟩ "right" rfl).2
    ⟨⟨30, 0, 0⟩, ⟨0, 1, 0⟩, true⟩ (by simp [odmSample])
    (by
      have h900 : Real.sqrt 900 = 30 := by
        rw [show (900 : ℝ) = 30 ^ 2 by norm_num]
        exact Real.sqrt_sq (by norm_num)
      have h1 : Real.sqrt 1 = 1 := Real.sqrt_one
      refine ⟨rfl, ?_, fun hpos => ?_⟩ <;>
        simp [odmSample, Vec3.magnitude, Vec3.normSq, Vec3.sub_def,
          Vec3.normalized, Vec3.sdiv, Vec3.dot, h900, h1] <;> norm_num)

/-- C5 counterexample: with a single valid surface exactly at the
player's position, the spec's candidate set is empty (the normalized
direction to the surface is the zero vector, whose dot-product 0 is
below 0.5), yet `fire_hook` returns `true` and attaches with
`rope_length = 0`, because the code skips the direction check when
the distance is 0. -/
theorem fire_hook_zero_distance_counterexample :
    (∀ surf ∈ ({ odmSample with
        surfaces := [⟨⟨0, 0, 0⟩, ⟨0, 1, 0⟩, true⟩] } : ODMSystem ℝ).surfaces,
      ¬ specHookCandidate ⟨Real.sqrt, Real.cos, Real.sin⟩ 50 ⟨0, 0, 0⟩
        (Vec3.normalized ⟨Real.sqrt, Real.cos, Real.sin⟩ ⟨1, 0, 0⟩) surf) ∧
    (ODMSystem.fire_hook ⟨Real.sqrt, Real.cos, Real.sin⟩
      { odmSample with surfaces := [⟨⟨0, 0, 0⟩, ⟨0, 1, 0⟩, true⟩] }
      ⟨1, 0, 0⟩ "right").1 = true ∧
    ((ODMSystem.fire_hook ⟨Real.sqrt, Real.cos, Real.sin⟩
      { odmSample with surfaces := [⟨⟨0, 0, 0⟩, ⟨0, 1, 0⟩, true⟩] }
      ⟨1, 0, 0⟩ "right").2.right_hook).rope_length = 0 := by
  have h1 : Real.sqrt 1 = 1 := Real.sqrt_one
  have hpre : preS ({ odmSample with
      surfaces := [⟨⟨0, 0, 0⟩, ⟨0, 1, 0⟩, true⟩] } : ODMSystem ℝ) "right" =
      { odmSample with surfaces := [⟨⟨0, 0, 0⟩, ⟨0, 1, 0⟩, true⟩] } := by
    unfold preS
    rw [if_neg]
    simp [ODMSystem.get_hook, odmSample, HookState.cleared]
  have hfind : ODMSystem.find_attach_point ⟨Real.sqrt, Real.cos, Real.sin⟩
      ({ odmSample with surfaces := [⟨⟨0, 0, 0⟩, ⟨0, 1, 0⟩, true⟩] } :
        ODMSystem ℝ)
      ({ odmSample with surfaces := [⟨⟨0, 0, 0⟩, ⟨0, 1, 0⟩, true⟩] } :
        ODMSystem ℝ).position ⟨1, 0, 0⟩ =
      some ⟨⟨0, 0, 0⟩, ⟨0, 1, 0⟩, true⟩ := by
    unfold ODMSystem.find_attach_point
    norm_num [findGo, odmSample, Vec3.magnitude, Vec3.normSq, Vec3.sub_def,
      Real.sqrt_zero]
  refine ⟨?_, ?_, ?_⟩
  · intro surf hs
    have hse : surf = ⟨⟨0, 0, 0⟩, ⟨0, 1, 0⟩, true⟩ := by
      simpa [odmSample] using hs
    subst hse
    simp [specHookCandidate, Vec3.magnitude, Vec3.normSq, Vec3.sub_def,
      Vec3.normalized, Vec3.sdiv, Vec3.dot, Vec3.zero_def, h1]
  · rw [fire_hook_eq_match, hpre, hfind]
  · rw [fire_hook_eq_match, hpre, hfind]
    simp [ODMSystem.set_hook, odmSample, Vec3.magnitude, Vec3.normSq,
      Vec3.sub_def, Real.sqrt_zero]

/-- C10: calling `fire_hook` on a currently-attached side with no
qualifying surface in the aimed direction returns `false` and leaves
that side detached: the previous attachment is released first and not
restored, while position and velocity are unchanged by the call. -/
theorem fire_hook_failure_releases (m : MathOps ℝ) (s : ODMSystem ℝ)
    (direction : Vec3 ℝ) (side : String)
    (hm : m = ⟨Real.sqrt, Real.cos, Real.sin⟩)
    (hatt : (s.get_hook side).is_attached = true)
    (hno : ∀ surf ∈ s.surfaces,
      ¬ hookCandidate m s.hook_range s.position (direction.normalized m) surf) :
    s.fire_hook m direction side = (false, s.release_hook side) ∧
    ((s.release_hook side).get_hook side).is_attached = false ∧
    (s.release_hook side).position = s.position ∧
    (s.release_hook side).velocity = s.velocity := by
  have hpre : preS s side = s.release_hook side := by
    unfold preS
    rw [if_pos hatt]
  obtain ⟨hpos, hvel, hsurf, hrange⟩ := release_hook_preserves s side
  have hfind : (preS s side).find_attach_point m (preS s side).position
      direction = none := by
    rw [find_attach_point_none_iff]
    intro surf hs
    rw [hpre, hsurf] at hs
    rw [hpre, hpos, hrange]
    exact hno surf hs
  refine ⟨?_, ?_, hpos, hvel⟩
  · rw [fire_hook_eq_match, hfind, hpre]
  · rw [ODMSystem.release_hook, ODMSystem.get_set_hook]
    rfl

/-- Witness for C10: the right hook is attached, the surface list is
empty, so firing again detaches and fails while motion state is
kept. -/
theorem fire_hook_failure_releases_witness :
    ODMSystem.fire_hook ⟨Real.sqrt, Real.cos, Real.sin⟩
      ({ odmSample with right_hook :=
        { is_attached := true, attach_point := ⟨3, 4, 0⟩, rope_length := 5,
          tension := 0 } } : ODMSystem ℝ) ⟨0, 1, 0⟩ "right" =
      (false, ODMSystem.release_hook
        ({ odmSample with right_hook :=
          { is_attached := true, attach_point := ⟨3, 4, 0⟩, rope_length := 5,
            tension := 0 } } : ODMSystem ℝ) "right") ∧
    ((ODMSystem.release_hook
      ({ odmSample with right_hook :=
        { is_attached := true, attach_point := ⟨3, 4, 0⟩, rope_length := 5,
          tension := 0 } } : ODMSystem ℝ) "right").get_hook "right").is_attached
      = false ∧
    (ODMSystem.release_hook
      ({ odmSample with right_hook :=
        { is_attached := true, attach_point := ⟨3, 4, 0⟩, rope_length := 5,
          tension := 0 } } : ODMSystem ℝ) "right").position =
      ({ odmSample with right_hook :=
        { is_attached := true, attach_point := ⟨3, 4, 0⟩, rope_length := 5,
          tension := 0 } } : ODMSystem ℝ).position ∧
    (ODMSystem.release_hook
      ({ odmSample with right_hook :=
        { is_attached := true, attach_point := ⟨3, 4, 0⟩, rope_length := 5,
          tension := 0 } } : ODMSystem ℝ) "right").velocity =
      ({ odmSample with right_hook :=
        { is_attached := true, attach_point := ⟨3, 4, 0⟩, rope_length := 5,
          tension := 0 } } : ODMSystem ℝ).velocity :=
  fire_hook_failure_releases ⟨Real.sqrt, Real.cos, Real.sin⟩
    ({ odmSample with right_hook :=
      { is_attached := true, attach_point := ⟨3, 4, 0⟩, rope_length := 5,
        tension := 0 } } : ODMSystem ℝ) ⟨0, 1, 0⟩ "right" rfl
    (by simp [ODMSystem.get_hook, odmSample])
    (by intro surf hs; simp [odmSample] at hs)

/-- Combining the code's drag update `v + v * (−AIR_RESISTANCE)` into
the single multiplier `1 − AIR_RESISTANCE`. -/
lemma drag_combine (a : Vec3 K) :
    a + a * (-(airResistance : K)) = a * ((1 : K) - airResistance) := by
  cases a
  simp only [Vec3.add_def, Vec3.mul_def, Vec3.mk.injEq, airResistance]
  refine ⟨by ring, by ring, by ring⟩

/-- C3 (amended): in `update_swing_physics` with `dt > 0`, after
gravity and both hook constraints produce `post_hook_velocity`, the
air drag multiplies that velocity by the constant
`1 − AIR_RESISTANCE` — with no `dt` scaling — and only then is the
position integrated with the dragged velocity (`p += v·dt`). -/
theorem swing_drag_after_hooks (m : MathOps ℝ) (s : ODMSystem ℝ) (dt : ℝ)
    (hm : m = ⟨Real.sqrt, Real.cos, Real.sin⟩) (hdt : 0 < dt) :
    (ODMSystem.update_swing_physics m dt s).velocity =
      ODMSystem.post_hook_velocity m dt s * ((1 : ℝ) - airResistance) ∧
    (ODMSystem.update_swing_physics m dt s).position =
      s.position +
        ODMSystem.post_hook_velocity m dt s * ((1 : ℝ) - airResistance) * dt := by
  unfold ODMSystem.update_swing_physics ODMSystem.post_hook_velocity
  rw [if_neg (not_le.mpr hdt)]
  simp only []
  exact ⟨drag_combine _, by rw [drag_combine]⟩

/-- Witness for C3: the swing update of the sample state with both
hooks free and `dt = 1`. -/
theorem swing_drag_after_hooks_witness :
    (ODMSystem.update_swing_physics ⟨Real.sqrt, Real.cos, Real.sin⟩ 1
      (odmSample : ODMSystem ℝ)).velocity =
      ODMSystem.post_hook_velocity ⟨Real.sqrt, Real.cos, Real.sin⟩ 1
        odmSample * ((1 : ℝ) - airResistance) ∧
    (ODMSystem.update_swing_physics ⟨Real.sqrt, Real.cos, Real.sin⟩ 1
      (odmSample : ODMSystem ℝ)).position =
      odmSample.position +
        ODMSystem.post_hook_velocity ⟨Real.sqrt, Real.cos, Real.sin⟩ 1
          odmSample * ((1 : ℝ) - airResistance) * (1 : ℝ) :=
  swing_drag_after_hooks ⟨Real.sqrt, Real.cos, Real.sin⟩ odmSample 1 rfl
    (by norm_num)

/-- C3 counterexample: at `dt = 0.5` with both hooks free and
velocity `(1, 0, 0)`, the code multiplies the x-velocity by
`1 − 0.02 = 0.98`, while the claimed `dt`-scaled drag would give
`1 − 0.02·0.5 = 0.99`; the two disagree, so the drag is not scaled by
`dt`. -/
theorem swing_drag_not_dt_scaled_counterexample :
    (ODMSystem.update_swing_physics ⟨Real.sqrt, Real.cos, Real.sin⟩ (1 / 2)
      (odmSample : ODMSystem ℝ)).velocity.x = 49 / 50 ∧
    (ODMSystem.update_swing_physics_scaled_drag ⟨Real.sqrt, Real.cos, Real.sin⟩
      (1 / 2) (odmSample : ODMSystem ℝ)).velocity.x = 99 / 100 ∧
    (49 : ℝ) / 50 ≠ 99 / 100 := by
  refine ⟨?_, ?_, by norm_num⟩
  · norm_num [ODMSystem.update_swing_physics, ODMSystem.apply_hook_constraint,
      odmSample, HookState.cleared, gravityVec, airResistance, Vec3.add_def,
      Vec3.mul_def]
  · norm_num [ODMSystem.update_swing_physics_scaled_drag,
      ODMSystem.apply_hook_constraint, odmSample, HookState.cleared,
      gravityVec, airResistance, Vec3.add_def, Vec3.mul_def]

/-- `_change_state` never touches health, liveness or the stun
timer. -/
lemma change_state_preserves (t : TitanAI K) (ns : TitanState) :
    (t.change_state ns).health = t.health ∧
    (t.change_state ns).is_alive = t.is_alive ∧
    (t.change_state ns).max_health = t.max_health ∧
    (t.change_state ns).stun_timer = t.stun_timer := by
  unfold TitanAI.change_state
  split <;> exact ⟨rfl, rfl, rfl, rfl⟩

/-- After `_change_state` the current state is the requested one
(also when the call was a no-op because it already was). -/
lemma change_state_current (t : TitanAI K) (ns : TitanState) :
    (t.change_state ns).current_state = ns := by
  unfold TitanAI.change_state
  split
  · next h => exact h.symm
  · rfl

/-- A `_change_state` to a genuinely different state records the old
state and resets the state timer. -/
lemma change_state_switch (t : TitanAI K) (ns : TitanState)
    (h : ¬ ns = t.current_state) :
    t.change_state ns =
      { t with previous_state := t.current_state, current_state := ns,
               state_timer := 0 } := by
  unfold TitanAI.change_state
  rw [if_neg h]

/-- `_trigger_damage_response` never touches health or liveness. -/
lemma trigger_response_preserves (t : TitanAI K) :
    t.trigger_damage_response.health = t.health ∧
    t.trigger_damage_response.is_alive = t.is_alive ∧
    t.trigger_damage_response.max_health = t.max_health := by
  unfold TitanAI.trigger_damage_response TitanAI.change_state
  simp only []
  split_ifs <;> exact ⟨rfl, rfl, rfl⟩

/-- Under the retreat condition, `_trigger_damage_response` arms the
response timer, stuns for 1 s and remembers the pre-stun state. -/
lemma trigger_response_stuns (t : TitanAI K)
    (hretreat : t.behavior.retreat_threshold > 0)
    (hfrac : t.health / t.max_health < t.behavior.retreat_threshold)
    (hstate : t.current_state ≠ .stunned) :
    t.trigger_damage_response =
      { t with response_timer := t.data.response_time, stun_timer := 1,
               previous_state := t.current_state,
               current_state := .stunned, state_timer := 0 } := by
  unfold TitanAI.trigger_damage_response TitanAI.change_state
  rw [if_pos ⟨hretreat, hfrac⟩, if_neg (fun h => hstate h.symm)]

/-- `set_target` only updates the target. -/
lemma set_target_preserves (pp : Option (Vec3 K)) (t : TitanAI K) :
    (TitanAI.set_target pp t).current_state = t.current_state ∧
    (TitanAI.set_target pp t).state_timer = t.state_timer := by
  cases pp <;> exact ⟨rfl, rfl⟩

/-- When the stun timer of a stunned titan runs out inside the timer
block, the pre-stun state is restored with a fresh state timer. -/
lemma update_timers_resumes (t : TitanAI K) (dt : K)
    (hcur : t.current_state = .stunned)
    (hprev : t.previous_state ≠ .stunned)
    (hpos : 0 < t.stun_timer) (hle : t.stun_timer ≤ dt) :
    (TitanAI.update_timers dt t).current_state = t.previous_state ∧
    (TitanAI.update_timers dt t).state_timer = 0 := by
  unfold TitanAI.update_timers TitanAI.change_state
  have h4 : t.stun_timer - dt ≤ 0 := by linarith
  by_cases h2 : t.attack_cooldown > 0 <;> by_cases h3 : t.response_timer > 0 <;>
    simp [h2, h3, hpos, h4, hcur, hprev]

/-- C2 (amended): under the simulation operations death is permanent —
`take_damage` on a dead titan returns `false` and changes nothing,
`update` on a dead titan is a no-op, and non-weak-point damage that
brings health to exactly 0 kills, zeroes health and enters the
terminal Dying state with `is_alive = false`.  (The save-restore
operation `set_state` can set `is_alive` back to `true`; see the
counterexample.) -/
theorem titan_death_permanent_for_simulation :
    (∀ (t : TitanAI ℝ) (damage : ℝ) (hit_nape : Bool), t.is_alive = false →
      t.take_damage damage hit_nape = (false, t)) ∧
    (∀ (m : MathOps ℝ) (dt : ℝ) (pp : Option (Vec3 ℝ)) (t : TitanAI ℝ)
      (ρ : List ℝ), t.is_alive = false → TitanAI.update m dt pp t ρ = (t, ρ)) ∧
    (∀ (t : TitanAI ℝ) (damage : ℝ), t.is_alive = true →
      t.health - t.effective_damage damage false = 0 →
      (t.take_damage damage false).1 = true ∧
      (t.take_damage damage false).2.is_alive = false ∧
      (t.take_damage damage false).2.current_state = .dying ∧
      (t.take_damage damage false).2.health = 0) := by
  refine ⟨?_, ?_, ?_⟩
  · intro t damage hit_nape h
    simp [TitanAI.take_damage, h]
  · intro m dt pp t ρ h
    simp [TitanAI.update, h]
  · intro t damage halive hzero
    have hh : ({ t with health := t.health - t.effective_damage damage false} :
        TitanAI ℝ).trigger_damage_response.health ≤ 0 := by
      rw [(trigger_response_preserves _).1]
      exact le_of_eq hzero
    unfold TitanAI.take_damage
    rw [if_neg (by simp [halive]), if_neg (by simp)]
    simp only []
    rw [if_pos hh]
    refine ⟨rfl, ?_, change_state_current _ _, ?_⟩
    · rw [TitanAI.die, (change_state_preserves _ _).2.1]
    · rw [TitanAI.die, (change_state_preserves _ _).1]

/-- C2 counterexample: a dead titan restored through `set_state` with
a save dictionary that lacks the `is_alive` key becomes alive again
(`dict.get('is_alive', True)` defaults to `True`), so "never becomes
true again under any subsequent operation" fails. -/
theorem titan_set_state_revival_counterexample :
    ({ titanAISample with is_alive := false, health := 0,
                          current_state := .dying } : TitanAI ℝ).is_alive
      = false ∧
    (TitanAI.set_state
      { titanAISample with is_alive := false, health := 0,
                           current_state := .dying }
      ⟨none, none, none, none⟩ : TitanAI ℝ).is_alive = true :=
  ⟨rfl, rfl⟩

/-- Witness for C2: a dead sample titan is unchanged by further
damage and updates, and a 100-damage body hit on the live sample
titan (health 100) kills into Dying. -/
theorem titan_death_permanent_witness :
    TitanAI.take_damage
      ({ titanAISample with is_alive := false, health := 0,
                            current_state := .dying } : TitanAI ℝ) 50 false =
      (false, { titanAISample with is_alive := false, health := 0,
                                   current_state := .dying }) ∧
    TitanAI.update ⟨Real.sqrt, Real.cos, Real.sin⟩ (1/60) none
      ({ titanAISample with is_alive := false, health := 0,
                            current_state := .dying } : TitanAI ℝ) [] =
      ({ titanAISample with is_alive := false, health := 0,
                            current_state := .dying }, []) ∧
    ((titanAISample : TitanAI ℝ).take_damage 100 false).1 = true ∧
    ((titanAISample : TitanAI ℝ).take_damage 100 false).2.is_alive = false ∧
    ((titanAISample : TitanAI ℝ).take_damage 100 false).2.current_state
      = .dying :=
  ⟨titan_death_permanent_for_simulation.1 _ 50 false rfl,
   titan_death_permanent_for_simulation.2.1 _ (1/60) none _ [] rfl,
   (titan_death_permanent_for_simulation.2.2 titanAISample 100 rfl
     (by norm_num [TitanAI.effective_damage, titanAISample, normal3mData])).1,
   (titan_death_permanent_for_simulation.2.2 titanAISample 100 rfl
     (by norm_num [TitanAI.effective_damage, titanAISample, normal3mData])).2.1,
   (titan_death_permanent_for_simulation.2.2 titanAISample 100 rfl
     (by norm_num [TitanAI.effective_damage, titanAISample, normal3mData])).2.2.1⟩

/-- C4 (amended): constructing a `TitanAI` with a titan type
identifier absent from the lookup table raises `ValueError` (modelled
as `Except.error`); the silent default substitution applies only to
the behavior lookup, which falls back to the standard
`BehaviorPattern` when the behavior name is missing. -/
theorem titan_init_lookup_behavior (titanCache : List (String × TitanData ℝ))
    (behaviorCache : List (String × BehaviorPattern ℝ)) (id : String)
    (pos : Option (Vec3 ℝ)) :
    (titanCache.lookup id = none →
      TitanAI.init titanCache behaviorCache id pos =
        .error ("Unknown titan type: " ++ id)) ∧
    (∀ d, titanCache.lookup id = some d →
      behaviorCache.lookup d.behavior = none →
      ∃ t, TitanAI.init titanCache behaviorCache id pos = .ok t ∧
        t.behavior = standardPattern ∧ t.data = d) := by
  constructor
  · intro h
    unfold TitanAI.init
    rw [h]
  · intro d hd hb
    unfold TitanAI.init
    rw [hd]
    refine ⟨_, rfl, ?_, rfl⟩
    show (behaviorCache.lookup d.behavior).getD standardPattern = standardPattern
    rw [hb]
    rfl

/-- C4 counterexample: with the default lookup tables (only
`normal_3m` is known), constructing `abnormal_7m` is a raised
`ValueError`, not a silent default titan. -/
theorem titan_init_unknown_raises_counterexample :
    TitanAI.init (defaultTitanCache : List (String × TitanData ℝ))
      defaultBehaviorCache "abnormal_7m" none =
      .error "Unknown titan type: abnormal_7m" := by
  unfold TitanAI.init defaultTitanCache
  rfl

/-- Witness for C4: an unknown id errors against the default tables,
and a known id whose behavior name is missing from the behavior table
constructs successfully with the standard fallback pattern. -/
theorem titan_init_lookup_behavior_witness :
    TitanAI.init (defaultTitanCache : List (String × TitanData ℝ))
      defaultBehaviorCache "abnormal_7m" none =
      .error ("Unknown titan type: " ++ "abnormal_7m") ∧
    ∃ t, TitanAI.init [("abnormal_7m", (abnormal7mData : TitanData ℝ))] []
        "abnormal_7m" none = .ok t ∧
      t.behavior = standardPattern ∧ t.data = abnormal7mData :=
  ⟨(titan_init_lookup_behavior defaultTitanCache defaultBehaviorCache
      "abnormal_7m" none).1 rfl,
   (titan_init_lookup_behavior [("abnormal_7m", abnormal7mData)] []
      "abnormal_7m" none).2 abnormal7mData rfl rfl⟩

/-- C7: for a living titan whose behavior has a positive retreat
threshold, non-fatal damage leaving the health fraction below the
threshold stuns it for 1 s remembering the pre-stun state; once
accumulated update time reaches the stun timer, the timer block of
`update` restores the pre-stun state (for any pre-stun state), and a
full `update` call ends the tick back in the pre-stun state when that
state is Idle. -/
theorem titan_stun_and_resume :
    (∀ (t : TitanAI ℝ) (damage : ℝ), t.is_alive = true →
      t.current_state ≠ .stunned → t.behavior.retreat_threshold > 0 →
      0 < t.max_health →
      0 < t.health - t.effective_damage damage false →
      (t.health - t.effective_damage damage false) / t.max_health <
        t.behavior.retreat_threshold →
      (t.take_damage damage false).1 = false ∧
      (t.take_damage damage false).2.current_state = .stunned ∧
      (t.take_damage damage false).2.stun_timer = 1 ∧
      (t.take_damage damage false).2.previous_state = t.current_state ∧
      (t.take_damage damage false).2.is_alive = true) ∧
    (∀ (t : TitanAI ℝ) (dt : ℝ), t.current_state = .stunned →
      t.previous_state ≠ .stunned → 0 < t.stun_timer → t.stun_timer ≤ dt →
      (TitanAI.update_timers dt t).current_state = t.previous_state) ∧
    (∀ (t : TitanAI ℝ) (dt : ℝ) (pp : Option (Vec3 ℝ)) (ρ : List ℝ),
      t.is_alive = true → t.current_state = .stunned →
      t.previous_state = .idle → 0 < t.stun_timer → t.stun_timer ≤ dt →
      (TitanAI.update ⟨Real.sqrt, Real.cos, Real.sin⟩ dt pp t ρ).1.current_state
        = .idle) := by
  refine ⟨?_, ?_, ?_⟩
  · intro t damage halive hstate hretreat hmax hpos hfrac
    unfold TitanAI.take_damage
    rw [if_neg (by simp [halive]), if_neg (by simp)]
    simp only []
    rw [trigger_response_stuns
      ({ t with health := t.health - t.effective_damage damage false })
      hretreat hfrac hstate]
    rw [if_neg (not_le.mpr hpos)]
    exact ⟨rfl, rfl, rfl, rfl, halive⟩
  · intro t dt hcur hprev hpos hle
    exact (update_timers_resumes t dt hcur hprev hpos hle).1
  · intro t dt pp ρ halive hcur hprev hpos hle
    have hres := update_timers_resumes t dt hcur
      (by rw [hprev]; exact fun h => TitanState.noConfusion h) hpos hle
    unfold TitanAI.update
    rw [if_neg (by simp [halive])]
    have hc2 : (TitanAI.set_target pp (TitanAI.update_timers dt t)).current_state
        = .idle := by
      rw [(set_target_preserves pp _).1, hres.1, hprev]
    have hs2 : (TitanAI.set_target pp (TitanAI.update_timers dt t)).state_timer
        = 0 := by
      rw [(set_target_preserves pp _).2, hres.2]
    unfold TitanAI.execute_state_behavior
    rw [hc2]
    unfold TitanAI.behavior_idle
    rw [if_neg (by rw [hs2]; norm_num)]
    exact hc2

/-- Witness for C7: a 90-damage body hit on a cautious sample titan
(health 100, retreat threshold 0.5) stuns it; a stunned sample with
1 s left resumes Pursuing through the timer block at `dt = 1`; a
stunned sample whose pre-stun state is Idle ends a full 1 s update
back in Idle. -/
theorem titan_stun_and_resume_witness :
    (TitanAI.take_damage
      ({ titanAISample with behavior := cautiousPattern } : TitanAI ℝ)
      90 false).2.current_state = .stunned ∧
    (TitanAI.take_damage
      ({ titanAISample with behavior := cautiousPattern } : TitanAI ℝ)
      90 false).2.previous_state = .idle ∧
    (TitanAI.update_timers 1
      ({ titanAISample with current_state := .stunned,
                            previous_state := .pursuing, stun_timer := 1 } :
        TitanAI ℝ)).current_state = .pursuing ∧
    (TitanAI.update ⟨Real.sqrt, Real.cos, Real.sin⟩ 1 none
      ({ titanAISample with current_state := .stunned,
                            previous_state := .idle, stun_timer := 1 } :
        TitanAI ℝ) []).1.current_state = .idle :=
  ⟨(titan_stun_and_resume.1 { titanAISample with behavior := cautiousPattern }
      90 rfl (by decide)
      (by norm_num [cautiousPattern])
      (by norm_num [titanAISample])
      (by norm_num [TitanAI.effective_damage, titanAISample, normal3mData])
      (by norm_num [TitanAI.effective_damage, titanAISample, normal3mData,
        cautiousPattern])).2.1,
   (titan_stun_and_resume.1 { titanAISample with behavior := cautiousPattern }
      90 rfl (by decide)
      (by norm_num [cautiousPattern])
      (by norm_num [titanAISample])
      (by norm_num [TitanAI.effective_damage, titanAISample, normal3mData])
      (by norm_num [TitanAI.effective_damage, titanAISample, normal3mData,
        cautiousPattern])).2.2.2.1,
   titan_stun_and_resume.2.1
      { titanAISample with current_state := .stunned,
                           previous_state := .pursuing, stun_timer := 1 }
      1 rfl (by decide) (by norm_num) (by norm_num),
   titan_stun_and_resume.2.2
      { titanAISample with current_state := .stunned,
                           previous_state := .idle, stun_timer := 1 }
      1 none [] rfl rfl rfl (by norm_num) (by norm_num)⟩

/-- C9 (amended): `process_qte_input` returns `true` exactly when an
active QTE exists whose required input matches the supplied key
case-insensitively (`key.lower() == required.lower()`, not an exact
string match); on success the player escapes airborne with the escape
impulse `(0, 5, -3)` and the QTE is destroyed; on every failure the
player state is completely unchanged. -/
theorem qte_input_case_insensitive_match (p : Player ℝ) (key : String) :
    ((p.process_qte_input key).1 = true ↔
      ∃ q, p.current_qte = some q ∧ q.is_active = true ∧
        strLower key = strLower q.required_key) ∧
    ((p.process_qte_input key).1 = true →
      (p.process_qte_input key).2.current_state = .airborne ∧
      (p.process_qte_input key).2.velocity = ⟨0, 5, -3⟩ ∧
      (p.process_qte_input key).2.current_qte = none) ∧
    ((p.process_qte_input key).1 = false → (p.process_qte_input key).2 = p) := by
  cases hq : p.current_qte with
  | none =>
    have hres : p.process_qte_input key = (false, p) := by
      unfold Player.process_qte_input
      rw [hq]
    rw [hres]
    refine ⟨?_, ?_, fun _ => rfl⟩
    · constructor
      · intro h; simp at h
      · rintro ⟨q2, hq2, -, -⟩
        simp at hq2
    · intro h; simp at h
  | some q =>
    by_cases hact : q.is_active = true
    · by_cases hkey : strLower key = strLower q.required_key
      · have hres : p.process_qte_input key =
            (true, Player.escape_grab
              { p with current_qte := some { q with success := true } }) := by
          unfold Player.process_qte_input QTEEvent.check_input
          rw [hq]
          simp only [hact, Bool.not_true, if_pos hkey]
          rfl
        rw [hres]
        refine ⟨?_, fun _ => ⟨rfl, rfl, rfl⟩, ?_⟩
        · exact ⟨fun _ => ⟨q, rfl, hact, hkey⟩, fun _ => rfl⟩
        · intro h; simp at h
      · have hres : p.process_qte_input key = (false, p) := by
          unfold Player.process_qte_input QTEEvent.check_input
          rw [hq]
          simp only [hact, Bool.not_true, if_neg hkey]
          cases p
          simp only [Prod.mk.injEq, Player.mk.injEq]
          simp_all
        rw [hres]
        refine ⟨?_, ?_, fun _ => rfl⟩
        · constructor
          · intro h; simp at h
          · rintro ⟨q2, hq2, -, hk2⟩
            injection hq2 with hq2
            subst hq2
            exact absurd hk2 hkey
        · intro h; simp at h
    · have hres : p.process_qte_input key = (false, p) := by
        unfold Player.process_qte_input
        rw [hq]
        simp [hact]
      rw [hres]
      refine ⟨?_, ?_, fun _ => rfl⟩
      · constructor
        · intro h; simp at h
        · rintro ⟨q2, hq2, ha2, -⟩
          injection hq2 with hq2
          subst hq2
          exact absurd ha2 hact
      · intro h; simp at h

/-- C9 counterexample: the supplied key `"E"` is not an exact match
of the required input `"e"`, yet `process_qte_input` succeeds — the
comparison is case-insensitive, so "only on an exact match of the
required input" fails. -/
theorem qte_exact_match_counterexample :
    ((playerSample : Player ℝ).process_qte_input "E").1 = true ∧
    "E" ≠ "e" := by
  constructor
  · rfl
  · decide

/-- Witness for C9: the matching key `"e"` escapes (airborne, QTE
destroyed), and the non-matching key `"x"` leaves the sample player
unchanged. -/
theorem qte_input_case_insensitive_match_witness :
    ((playerSample : Player ℝ).process_qte_input "e").1 = true ∧
    ((playerSample : Player ℝ).process_qte_input "e").2.current_state
      = .airborne ∧
    ((playerSample : Player ℝ).process_qte_input "e").2.current_qte = none ∧
    ((playerSample : Player ℝ).process_qte_input "x").2 = playerSample := by
  have h1 : ((playerSample : Player ℝ).process_qte_input "e").1 = true :=
    (qte_input_case_insensitive_match playerSample "e").1.mpr
      ⟨{ required_key := "e", time_limit := 2, elapsed_time := 0,
         success := false, failed := false }, rfl, rfl, rfl⟩
  have h2 := (qte_input_case_insensitive_match playerSample "e").2.1 h1
  have h3 : ((playerSample : Player ℝ).process_qte_input "x").1 = false := by
    rfl
  exact ⟨h1, h2.1, h2.2.2,
    (qte_input_case_insensitive_match playerSample "x").2.2 h3⟩
